import Mathlib

/-!
Verification of the Kumon particle-simulation core against its specification.

The TypeScript source is shallowly embedded: JavaScript numbers are modelled
as real numbers, `Math.sqrt` as `Real.sqrt`, `Math.cos` / `Math.sin` as
`Real.cos` / `Real.sin`, and each call to `Math.random()` is threaded in as an
explicit parameter.  Mutable class state becomes explicit state passing.
-/

noncomputable section

open scoped Classical

-- ════════════════════════════════════════════════════════════════════════════
-- src/physics/Vector2D.ts
-- ════════════════════════════════════════════════════════════════════════════

/-- Immutable 2D vector, from `src/physics/Vector2D.ts`. -/
structure Vector2D where
  x : ℝ
  y : ℝ
deriving DecidableEq

namespace Vector2D

/-- Static factory `Vector2D.zero()`. -/
def zero : Vector2D := ⟨0, 0⟩

/-- Method `add(other)`. -/
def add (v other : Vector2D) : Vector2D := ⟨v.x + other.x, v.y + other.y⟩

/-- Method `subtract(other)`. -/
def subtract (v other : Vector2D) : Vector2D := ⟨v.x - other.x, v.y - other.y⟩

/-- Method `multiply(scalar)`. -/
def multiply (v : Vector2D) (scalar : ℝ) : Vector2D := ⟨v.x * scalar, v.y * scalar⟩

/-- Method `divide(scalar)`: `if (scalar === 0) return Vector2D.zero()`. -/
def divide (v : Vector2D) (scalar : ℝ) : Vector2D :=
  if scalar = 0 then zero else ⟨v.x / scalar, v.y / scalar⟩

/-- Method `negate()`. -/
def negate (v : Vector2D) : Vector2D := ⟨-v.x, -v.y⟩

/-- Method `magnitude()`: `Math.sqrt(x*x + y*y)`. -/
def magnitude (v : Vector2D) : ℝ := Real.sqrt (v.x * v.x + v.y * v.y)

/-- Method `magnitudeSquared()`. -/
def magnitudeSquared (v : Vector2D) : ℝ := v.x * v.x + v.y * v.y

/-- Method `normalize()`: `if (mag === 0) return Vector2D.zero(); return this.divide(mag)`. -/
def normalize (v : Vector2D) : Vector2D :=
  if v.magnitude = 0 then zero else v.divide v.magnitude

/-- Method `dot(other)`. -/
def dot (v other : Vector2D) : ℝ := v.x * other.x + v.y * other.y

/-- Method `distanceTo(other)`: `this.subtract(other).magnitude()`. -/
def distanceTo (v other : Vector2D) : ℝ := (v.subtract other).magnitude

/-- Method `clamp(minX, maxX, minY, maxY)`. -/
def clamp (v : Vector2D) (minX maxX minY maxY : ℝ) : Vector2D :=
  ⟨max minX (min maxX v.x), max minY (min maxY v.y)⟩

end Vector2D

-- ════════════════════════════════════════════════════════════════════════════
-- src/physics/core/NewtonianIntegrator.ts
-- ════════════════════════════════════════════════════════════════════════════

/-- Interface `KineticState` from `src/physics/core/NewtonianIntegrator.ts`. -/
structure KineticState where
  position : Vector2D
  velocity : Vector2D
  acceleration : Vector2D
  mass : ℝ
  damping : ℝ
  radius : ℝ

/-- Enum `IntegrationMethod`. -/
inductive IntegrationMethod where
  | EULER
  | SEMI_IMPLICIT_EULER
  | VELOCITY_VERLET
deriving DecidableEq

/-- Class `NewtonianIntegrator` (configuration fields; constructor defaults are
`SEMI_IMPLICIT_EULER`, `maxVelocity = 50`, `minVelocityThreshold = 0.001`). -/
structure NewtonianIntegrator where
  method : IntegrationMethod
  maxVelocity : ℝ
  minVelocityThreshold : ℝ

/-- The integrator built by `new NewtonianIntegrator()` with all defaults. -/
def NewtonianIntegrator.default : NewtonianIntegrator :=
  ⟨IntegrationMethod.SEMI_IMPLICIT_EULER, 50, 0.001⟩

namespace NewtonianIntegrator

/-- Private method `integrateEuler`. -/
def integrateEuler (s : KineticState) (dt : ℝ) : KineticState :=
  let s1 := { s with position := s.position.add (s.velocity.multiply dt) }
  { s1 with velocity := s1.velocity.add (s1.acceleration.multiply dt) }

/-- Private method `integrateSemiImplicitEuler`: velocity first, then position
using the updated velocity. -/
def integrateSemiImplicitEuler (s : KineticState) (dt : ℝ) : KineticState :=
  let s1 := { s with velocity := s.velocity.add (s.acceleration.multiply dt) }
  { s1 with position := s1.position.add (s1.velocity.multiply dt) }

/-- Private method `integrateVerlet` (simplified velocity Verlet). -/
def integrateVerlet (s : KineticState) (dt : ℝ) : KineticState :=
  let pd := (s.velocity.multiply dt).add (s.acceleration.multiply (0.5 * (dt * dt)))
  let s1 := { s with position := s.position.add pd }
  { s1 with velocity := s1.velocity.add (s1.acceleration.multiply dt) }

/-- Private method `applyDamping`: multiply velocity componentwise by the
damping factor. -/
def applyDamping (s : KineticState) : KineticState :=
  { s with velocity := ⟨s.velocity.x * s.damping, s.velocity.y * s.damping⟩ }

/-- Private method `clampVelocity`: rescale velocity to `maxVelocity` when the
speed exceeds it. -/
def clampVelocity (integ : NewtonianIntegrator) (s : KineticState) : KineticState :=
  if s.velocity.magnitude > integ.maxVelocity then
    { s with velocity := s.velocity.normalize.multiply integ.maxVelocity }
  else s

/-- Private method `applyVelocityThreshold`: snap velocity to zero below the
rest threshold. -/
def applyVelocityThreshold (integ : NewtonianIntegrator) (s : KineticState) : KineticState :=
  if s.velocity.magnitude < integ.minVelocityThreshold then
    { s with velocity := Vector2D.zero }
  else s

/-- Private method `resetAcceleration`. -/
def resetAcceleration (s : KineticState) : KineticState :=
  { s with acceleration := Vector2D.zero }

/-- Public method `integrate(state, dt)`: mass guard, scheme dispatch, damping,
velocity clamp, rest threshold, acceleration reset. -/
def integrate (integ : NewtonianIntegrator) (s : KineticState) (dt : ℝ) : KineticState :=
  if s.mass ≤ 0 then resetAcceleration s
  else
    let s1 :=
      match integ.method with
      | IntegrationMethod.EULER => integrateEuler s dt
      | IntegrationMethod.SEMI_IMPLICIT_EULER => integrateSemiImplicitEuler s dt
      | IntegrationMethod.VELOCITY_VERLET => integrateVerlet s dt
    resetAcceleration (integ.applyVelocityThreshold (integ.clampVelocity (applyDamping s1)))

/-- Public method `applyForce(state, force)`: accumulate `F/m`; no-op when
mass ≤ 0. -/
def applyForce (s : KineticState) (force : Vector2D) : KineticState :=
  if s.mass ≤ 0 then s
  else { s with acceleration := s.acceleration.add (force.divide s.mass) }

/-- Public method `applyImpulse(state, impulse)`: instantaneous `Δv = J/m`;
no-op when mass ≤ 0. -/
def applyImpulse (s : KineticState) (impulse : Vector2D) : KineticState :=
  if s.mass ≤ 0 then s
  else { s with velocity := s.velocity.add (impulse.divide s.mass) }

end NewtonianIntegrator

-- ════════════════════════════════════════════════════════════════════════════
-- src/physics/forces/ForceRegistry.ts — CoulombForceGenerator
-- ════════════════════════════════════════════════════════════════════════════

/-- Class `CoulombForceGenerator` (constructor defaults `k = 5000`,
`minDistance = 1.0`, `maxDistance = 500`, `softening = 10`). -/
structure CoulombForceGenerator where
  k : ℝ
  minDistance : ℝ
  maxDistance : ℝ
  softening : ℝ

namespace CoulombForceGenerator

/-- Method `calculate(p1, p2)`: zero below `minDistance` or above `maxDistance`,
otherwise Plummer-softened inverse square along `normalize(pos1 - pos2)`. -/
def calculate (g : CoulombForceGenerator) (p1 p2 : KineticState) : Vector2D :=
  let delta := p1.position.subtract p2.position
  let distanceSquared := delta.magnitudeSquared
  let distance := Real.sqrt distanceSquared
  if distance < g.minDistance then Vector2D.zero
  else if distance > g.maxDistance then Vector2D.zero
  else
    let softenedDistSq := distanceSquared + g.softening * g.softening
    let forceMagnitude := g.k * p1.mass * p2.mass / softenedDistSq
    delta.normalize.multiply forceMagnitude

/-- Method `withK(newK)`. -/
def withK (g : CoulombForceGenerator) (newK : ℝ) : CoulombForceGenerator :=
  ⟨newK, g.minDistance, g.maxDistance, g.softening⟩

end CoulombForceGenerator

-- ════════════════════════════════════════════════════════════════════════════
-- src/hooks/usePhysicsEngine.ts — data model and force helpers
-- ════════════════════════════════════════════════════════════════════════════

/-- Closed tag set `'tutor' | 'student' | 'subject'`. -/
inductive ParticleType where
  | tutor
  | student
  | subject
deriving DecidableEq

/-- Interface `Particle extends KineticState` from `src/hooks/usePhysicsEngine.ts`. -/
structure Particle extends KineticState where
  id : String
  color : ℤ
  ptype : ParticleType
  isConnected : Bool

/-- Interface `PhysicsConfig`. -/
structure PhysicsConfig where
  repulsionStrength : ℝ
  attractionStrength : ℝ
  damping : ℝ
  targetDistance : ℝ
  centerGravity : ℝ

/-- Constant `DEFAULT_CONFIG`. -/
def DEFAULT_CONFIG : PhysicsConfig := ⟨5000, 0.01, 0.85, 100, 0.01⟩

/-- Hook-local `calculateRepulsion(p1, p2)`: Coulomb force with the distance
floored at 1, no softening, no range cutoff. -/
def calculateRepulsion (cfg : PhysicsConfig) (p1 p2 : Particle) : Vector2D :=
  let delta := p1.position.subtract p2.position
  let distance := max delta.magnitude 1
  let forceMagnitude := cfg.repulsionStrength * p1.mass * p2.mass / (distance * distance)
  delta.normalize.multiply forceMagnitude

/-- Hook-local `calculateAttraction(p1, p2)`: linear spring toward
`targetDistance`. -/
def calculateAttraction (cfg : PhysicsConfig) (p1 p2 : Particle) : Vector2D :=
  let delta := p2.position.subtract p1.position
  let distance := delta.magnitude
  let displacement := distance - cfg.targetDistance
  delta.normalize.multiply (cfg.attractionStrength * displacement)

/-- Hook-local `calculateCenterGravity(p)`: pull toward the canvas center. -/
def calculateCenterGravity (cfg : PhysicsConfig) (canvasWidth canvasHeight : ℝ)
    (p : Particle) : Vector2D :=
  let center : Vector2D := ⟨canvasWidth / 2, canvasHeight / 2⟩
  let delta := center.subtract p.position
  delta.multiply (cfg.centerGravity * p.mass)

/-- PHASE C of `simulate` for one particle: add center gravity divided by mass,
integrate velocity with the configured damping, integrate position, then clamp
the position into the canvas (axis clamp, lines 261-277 of the hook). -/
def phaseCStep (cfg : PhysicsConfig) (canvasWidth canvasHeight : ℝ)
    (p : Particle) : Particle :=
  let gravity := calculateCenterGravity cfg canvasWidth canvasHeight p
  let a := p.acceleration.add (gravity.divide p.mass)
  let v := (p.velocity.add a).multiply cfg.damping
  let x := p.position.add v
  { p with acceleration := a, velocity := v,
           position := ⟨max p.radius (min (canvasWidth - p.radius) x.x),
                        max p.radius (min (canvasHeight - p.radius) x.y)⟩ }

/-- Modelled from the spec words of C2 (refinement target): add the
center-gravity contribution divided by mass to the acceleration, run the
integrator's `integrate` step, then clamp the position into the canvas with
the same axis clamp the orchestrator uses. -/
def specIntegratePath (integ : NewtonianIntegrator) (cfg : PhysicsConfig)
    (canvasWidth canvasHeight : ℝ) (p : Particle) : Particle :=
  let gravity := calculateCenterGravity cfg canvasWidth canvasHeight p
  let s0 := { p.toKineticState with
    acceleration := p.acceleration.add (gravity.divide p.mass) }
  let s := integ.integrate s0 1
  { p with acceleration := s.acceleration, velocity := s.velocity,
           position := ⟨max p.radius (min (canvasWidth - p.radius) s.position.x),
                        max p.radius (min (canvasHeight - p.radius) s.position.y)⟩ }

-- ════════════════════════════════════════════════════════════════════════════
-- Concrete fixtures used by witnesses
-- ════════════════════════════════════════════════════════════════════════════

/-- A unit-mass kinetic state at the origin. -/
def stateA : KineticState := ⟨⟨0, 0⟩, Vector2D.zero, Vector2D.zero, 1, 1, 20⟩

/-- A unit-mass kinetic state at (3, 4). -/
def stateB : KineticState := ⟨⟨3, 4⟩, Vector2D.zero, Vector2D.zero, 1, 1, 20⟩

/-- The Coulomb generator built with the constructor defaults
`k = 5000, minDistance = 1, maxDistance = 500, softening = 10`. -/
def coulombDefault : CoulombForceGenerator := ⟨5000, 1, 500, 10⟩

/-- Concrete particle "A" at (300, 300): unit mass, damping 1, radius 22. -/
def particleA : Particle :=
  ⟨⟨⟨300, 300⟩, Vector2D.zero, Vector2D.zero, 1, 1, 22⟩, "A", 0, ParticleType.tutor, false⟩

/-- Concrete particle "B" at (310, 300): unit mass, damping 1, radius 22. -/
def particleB : Particle :=
  ⟨⟨⟨310, 300⟩, Vector2D.zero, Vector2D.zero, 1, 1, 22⟩, "B", 0, ParticleType.tutor, false⟩

/-- Concrete particle "C" at the canvas center (400, 300) with pending
acceleration (1, 0), unit mass and damping 0.85 (the default config value). -/
def particleC : Particle :=
  ⟨⟨⟨400, 300⟩, Vector2D.zero, ⟨1, 0⟩, 1, 0.85, 22⟩, "C", 0, ParticleType.tutor, false⟩

/-- Concrete particle "D" at (100, 100) with pending acceleration (1, 0),
unit mass and damping 1. -/
def particleD : Particle :=
  ⟨⟨⟨100, 100⟩, Vector2D.zero, ⟨1, 0⟩, 1, 1, 22⟩, "D", 0, ParticleType.tutor, false⟩

/-- A configuration with damping 1 and center gravity 0. -/
def configD1 : PhysicsConfig := ⟨5000, 0.01, 1, 100, 0⟩

-- ════════════════════════════════════════════════════════════════════════════
-- src/ai/CortexEngine.ts (unnamed part_001)
-- ════════════════════════════════════════════════════════════════════════════

/-- Enum `CortexState`. -/
inductive CortexState where
  | IDLE_DRIFT
  | HUNTING_TARGET
  | EVADING_CROWD
  | ORBITAL_LOCK
  | ERRANT_WANDER
deriving DecidableEq

/-- Interface `CognitivePacket`: per-entity brain state.  The JS `targetId` is
`string | null`; it is modelled as `Option String` (the falsy-string corner of
`!cortex.targetId` is not exercised by ids in this codebase). -/
structure CognitivePacket where
  state : CortexState
  targetId : Option String
  anxietyLevel : ℝ
  lastDecisionTick : ℕ
  wanderAngle : ℝ
  memory : List ℝ

namespace CortexEngine

/-- `createCognitivePacket()`; the one `Math.random()` call is the parameter
`r`, giving `wanderAngle = r * π * 2`. -/
def createCognitivePacket (r : ℝ) : CognitivePacket :=
  ⟨CortexState.IDLE_DRIFT, none, 0, 0, r * Real.pi * 2, []⟩

/-- `calculateCrowdDensity`: inverse-falloff-squared accumulation over
neighbors within the sensor radius 150, normalized by `min(1, density/5)`. -/
def calculateCrowdDensity (entity : Particle) (neighbors : List Particle) : ℝ :=
  let density := neighbors.foldl (fun acc n =>
    if n.id = entity.id then acc
    else
      let dist := entity.position.distanceTo n.position
      if dist < 150 ∧ dist > 0 then acc + (1 - dist / 150) * (1 - dist / 150)
      else acc) 0
  min 1 (density / 5)

/-- `findNearestNeighbor`: linear scan skipping the entity itself, starting
from an infinite best distance (so the first other entity is always taken). -/
def findNearestNeighbor (entity : Particle) (neighbors : List Particle) :
    Option Particle :=
  (neighbors.foldl (fun (acc : Option (Particle × ℝ)) n =>
    if n.id = entity.id then acc
    else
      let dist := entity.position.distanceTo n.position
      match acc with
      | none => some (n, dist)
      | some md => if dist < md.2 then some (n, dist) else acc) none).map Prod.fst

/-- `updateAnxiety`: exponential decay 0.9 plus crowd accumulation 0.1,
clamped above by 1. -/
def updateAnxiety (c : CognitivePacket) (crowdDensity : ℝ) : CognitivePacket :=
  { c with anxietyLevel := min 1 (c.anxietyLevel * 0.9 + crowdDensity * 0.1) }

/-- The `while (memory.length > 20) memory.shift()` loop. -/
def trimMemory (l : List ℝ) : List ℝ :=
  if l.length > 20 then trimMemory l.tail else l
termination_by l.length
decreasing_by
  simp only [List.length_tail]
  omega

/-- `updateMemory`: push the position pair, then trim to 20 scalars. -/
def updateMemory (c : CognitivePacket) (position : Vector2D) : CognitivePacket :=
  { c with memory := trimMemory (c.memory ++ [position.x, position.y]) }

/-- `evaluateStateTransition`: the per-state transition switch.  The two
`Math.random()` calls are the parameters `chance` (drawn before the switch)
and `freshWander` (drawn when entering ERRANT_WANDER). -/
def evaluateStateTransition (c : CognitivePacket) (density : ℝ)
    (nearestNeighbor : Option Particle) (chance freshWander : ℝ) : CognitivePacket :=
  match c.state with
  | CortexState.IDLE_DRIFT =>
      if density > 0.6 then { c with state := CortexState.EVADING_CROWD }
      else if chance < 0.05 then
        { c with state := CortexState.ERRANT_WANDER,
                 wanderAngle := freshWander * Real.pi * 2 }
      else c
  | CortexState.EVADING_CROWD =>
      if density < 0.2 then
        { c with state := CortexState.IDLE_DRIFT, anxietyLevel := 0 }
      else c
  | CortexState.ERRANT_WANDER =>
      if chance < 0.1 then { c with state := CortexState.IDLE_DRIFT } else c
  | CortexState.HUNTING_TARGET =>
      if c.targetId = none then { c with state := CortexState.IDLE_DRIFT } else c
  | CortexState.ORBITAL_LOCK =>
      if c.targetId = none ∨ nearestNeighbor = none then
        { c with state := CortexState.IDLE_DRIFT, targetId := none }
      else c

/-- `setTarget`: immediate override to HUNTING_TARGET. -/
def setTarget (c : CognitivePacket) (targetId : String) : CognitivePacket :=
  { c with targetId := some targetId, state := CortexState.HUNTING_TARGET }

/-- `setOrbit`: immediate override to ORBITAL_LOCK. -/
def setOrbit (c : CognitivePacket) (targetId : String) : CognitivePacket :=
  { c with targetId := some targetId, state := CortexState.ORBITAL_LOCK }

/-- `clearTarget`: immediate return to IDLE_DRIFT. -/
def clearTarget (c : CognitivePacket) : CognitivePacket :=
  { c with targetId := none, state := CortexState.IDLE_DRIFT }

/-- `behaviorDrift`: oscillation phase from tick and mass. -/
def behaviorDrift (entity : Particle) (tick : ℕ) : Vector2D :=
  let phase := (tick : ℝ) / 60 + entity.mass * 10
  let angle := Real.sin phase * Real.pi
  (⟨Real.cos angle, Real.sin angle⟩ : Vector2D).multiply 0.05

/-- `behaviorSeparation`: inverse-distance-weighted flee from neighbors within
the separation radius 60. -/
def behaviorSeparation (entity : Particle) (neighbors : List Particle) : Vector2D :=
  let sc := neighbors.foldl (fun (acc : Vector2D × ℕ) n =>
    if n.id = entity.id then acc
    else
      let dist := entity.position.distanceTo n.position
      if dist > 0 ∧ dist < 60 then
        (acc.1.add (((entity.position.subtract n.position).normalize).divide dist),
         acc.2 + 1)
      else acc) (Vector2D.zero, 0)
  let steering :=
    if sc.2 > 0 then
      let s1 := sc.1.divide (sc.2 : ℝ)
      if s1.magnitude > 0 then (s1.normalize.multiply 3).subtract entity.velocity
      else s1
    else sc.1
  steering.multiply 2

/-- `behaviorWander`: jitter the persistent angle (the `Math.random()` draw is
the parameter `jitter`) and emit a constant-magnitude vector along it. -/
def behaviorWander (c : CognitivePacket) (jitter : ℝ) : Vector2D × CognitivePacket :=
  let a := c.wanderAngle + (jitter - 0.5) * 0.3
  ((⟨Real.cos a, Real.sin a⟩ : Vector2D).multiply 1.5, { c with wanderAngle := a })

/-- `behaviorPursuit`: constant-magnitude seek toward a resolvable target. -/
def behaviorPursuit (entity : Particle) (neighbors : List Particle)
    (targetId : Option String) : Vector2D :=
  match targetId with
  | none => Vector2D.zero
  | some tid =>
      match neighbors.find? (fun n => n.id == tid) with
      | none => Vector2D.zero
      | some t => ((t.position.subtract entity.position).normalize).multiply 0.5

/-- `behaviorOrbit`: seek a point on the orbit circle of radius 80 around a
resolvable target, phase-advanced by tick and offset by mass. -/
def behaviorOrbit (entity : Particle) (neighbors : List Particle)
    (targetId : Option String) (tick : ℕ) : Vector2D :=
  match targetId with
  | none => Vector2D.zero
  | some tid =>
      match neighbors.find? (fun n => n.id == tid) with
      | none => Vector2D.zero
      | some t =>
          let orbitAngle := (tick : ℝ) * 0.02 + entity.mass
          let orbitPoint : Vector2D :=
            ⟨t.position.x + Real.cos orbitAngle * 80,
             t.position.y + Real.sin orbitAngle * 80⟩
          ((orbitPoint.subtract entity.position).normalize).multiply 0.5

/-- `executeBehavior`: dispatch on the (possibly just-updated) state; the
wander branch also mutates the packet's wander angle. -/
def executeBehavior (entity : Particle) (c : CognitivePacket)
    (neighbors : List Particle) (tick : ℕ) (jitter : ℝ) :
    Vector2D × CognitivePacket :=
  match c.state with
  | CortexState.IDLE_DRIFT => (behaviorDrift entity tick, c)
  | CortexState.EVADING_CROWD => (behaviorSeparation entity neighbors, c)
  | CortexState.ERRANT_WANDER => behaviorWander c jitter
  | CortexState.HUNTING_TARGET => (behaviorPursuit entity neighbors c.targetId, c)
  | CortexState.ORBITAL_LOCK => (behaviorOrbit entity neighbors c.targetId tick, c)

/-- `process`: perception, anxiety and memory update, throttled transition
evaluation (strictly more than 15 ticks since the last decision), then the
behavior for the current state.  Returns the steering force and the updated
packet. -/
def process (entity : Particle) (c : CognitivePacket) (neighbors : List Particle)
    (tick : ℕ) (chance freshWander jitter : ℝ) : Vector2D × CognitivePacket :=
  let crowdDensity := calculateCrowdDensity entity neighbors
  let nearestNeighbor := findNearestNeighbor entity neighbors
  let c1 := updateAnxiety c crowdDensity
  let c2 := updateMemory c1 entity.position
  let c3 :=
    if (tick : ℤ) - (c2.lastDecisionTick : ℤ) > 15 then
      { evaluateStateTransition c2 crowdDensity nearestNeighbor chance freshWander with
          lastDecisionTick := tick }
    else c2
  executeBehavior entity c3 neighbors tick jitter

end CortexEngine

-- ════════════════════════════════════════════════════════════════════════════
-- src/hooks/usePhysicsEngine.ts — the per-tick `simulate` pipeline
-- ════════════════════════════════════════════════════════════════════════════

/-- One `Math.random()` stream per random call site, indexed by the particle
position in the iteration order. -/
structure RandStream where
  freshAngle : ℕ → ℝ
  chance : ℕ → ℝ
  freshWander : ℕ → ℝ
  jitter : ℕ → ℝ

/-- The all-zero random stream. -/
def randZero : RandStream := ⟨fun _ => 0, fun _ => 0, fun _ => 0, fun _ => 0⟩

/-- PHASE 0 of `simulate`: walk the particle list in order; for each particle
fetch (or lazily create) its cognitive packet, run the Cortex process against
the snapshot taken before the loop, and add the steering into the particle's
acceleration. -/
def phase0 (snapshot : List Particle) (tick : ℕ) (rand : RandStream) :
    ℕ → List Particle → (String → Option CognitivePacket) →
    List Particle × (String → Option CognitivePacket)
  | _, [], pk => ([], pk)
  | i, p :: rest, pk =>
      let c := match pk p.id with
        | some c => c
        | none => CortexEngine.createCognitivePacket (rand.freshAngle i)
      let r := CortexEngine.process p c snapshot tick
        (rand.chance i) (rand.freshWander i) (rand.jitter i)
      let p2 := { p with acceleration := p.acceleration.add r.1 }
      let pk2 : String → Option CognitivePacket :=
        fun id => if id = p.id then some r.2 else pk id
      let res := phase0 snapshot tick rand (i + 1) rest pk2
      (p2 :: res.1, res.2)

/-- The index pairs (i, j) with i < j visited by the O(n²) double loop. -/
def pairList (n : ℕ) : List (ℕ × ℕ) :=
  (List.range n).flatMap (fun i => ((List.range n).drop (i + 1)).map (fun j => (i, j)))

/-- One iteration of PHASE A: apply the repulsion between particles i and j,
equal and opposite, each divided by the receiving mass. -/
def applyRepulsionPair (cfg : PhysicsConfig) (ps : List Particle)
    (ij : ℕ × ℕ) : List Particle :=
  match ps[ij.1]?, ps[ij.2]? with
  | some p1, some p2 =>
      let force := calculateRepulsion cfg p1 p2
      let ps1 := ps.set ij.1
        { p1 with acceleration := p1.acceleration.add (force.divide p1.mass) }
      ps1.set ij.2
        { p2 with acceleration := p2.acceleration.subtract (force.divide p2.mass) }
  | _, _ => ps

/-- PHASE A of `simulate`. -/
def phaseA (cfg : PhysicsConfig) (ps : List Particle) : List Particle :=
  (pairList ps.length).foldl (fun acc ij => applyRepulsionPair cfg acc ij) ps

/-- One iteration of PHASE B: resolve both endpoints of a connection (silently
skipping if either is gone) and apply the spring force symmetrically. -/
def applySpringPair (cfg : PhysicsConfig) (ps : List Particle)
    (id1 id2 : String) : List Particle :=
  match ps.findIdx? (fun p => p.id == id1), ps.findIdx? (fun p => p.id == id2) with
  | some i, some j =>
      match ps[i]?, ps[j]? with
      | some p1, some p2 =>
          let force := calculateAttraction cfg p1 p2
          let ps1 := ps.set i
            { p1 with acceleration := p1.acceleration.add (force.divide p1.mass) }
          ps1.set j
            { p2 with acceleration := p2.acceleration.subtract (force.divide p2.mass) }
      | _, _ => ps
  | _, _ => ps

/-- PHASE B of `simulate` over the connection set (canonicalized id pairs). -/
def phaseB (cfg : PhysicsConfig) (conns : List (String × String))
    (ps : List Particle) : List Particle :=
  conns.foldl (fun acc c => applySpringPair cfg acc c.1 c.2) ps

/-- One tick of `simulate`: reset accelerations, PHASE 0 (Cortex steering),
PHASE A (pairwise repulsion), PHASE B (connection springs), PHASE C (gravity,
integration, boundary clamp).  PHASE D (Chronos recording) only writes the
history buffer and never mutates particles, so it is modelled separately by
`ChronosBuffer.recordFrame`. -/
def simulate (cfg : PhysicsConfig) (W H : ℝ) (particles : List Particle)
    (packets : String → Option CognitivePacket)
    (connections : List (String × String)) (tick : ℕ) (rand : RandStream) :
    List Particle × (String → Option CognitivePacket) :=
  let ps0 := particles.map (fun p => { p with acceleration := Vector2D.zero })
  let r0 := phase0 ps0 tick rand 0 ps0 packets
  let psA := phaseA cfg r0.1
  let psB := phaseB cfg connections psA
  let psC := psB.map (phaseCStep cfg W H)
  (psC, r0.2)

/-- A cognitive packet locked in ORBITAL_LOCK on target id "X". -/
def packetOrbital : CognitivePacket :=
  ⟨CortexState.ORBITAL_LOCK, some "X", 0, 0, 0, []⟩

-- ════════════════════════════════════════════════════════════════════════════
-- src/core/time/ChronosBuffer.ts
-- ════════════════════════════════════════════════════════════════════════════

/-- Class `ChronosBuffer`: fixed-capacity circular log over a flat numeric
array (modelled as a total map from flat index to stored value; a fresh
Float32Array is all zeros).  `frameStride = entityCount * 6`. -/
structure ChronosBuffer where
  maxFrames : ℕ
  entityCount : ℕ
  buffer : ℤ → ℝ
  headIndex : ℕ
  playbackIndex : ℕ
  recordedFrames : ℕ
  isRecording : Bool

/-- `new ChronosBuffer(maxFrames, entityCount)`. -/
def ChronosBuffer.create (maxFrames entityCount : ℕ) : ChronosBuffer :=
  ⟨maxFrames, entityCount, fun _ => 0, 0, 0, 0, true⟩

namespace ChronosBuffer

/-- The six `recordFrame` writes for one entity at flat offset `off`
(LAYOUT: `[x, y, vx, vy, ax, ay]`). -/
def storeEntity (buf : ℤ → ℝ) (off : ℤ) (e : KineticState) : ℤ → ℝ :=
  fun a =>
    if a = off + 0 then e.position.x
    else if a = off + 1 then e.position.y
    else if a = off + 2 then e.velocity.x
    else if a = off + 3 then e.velocity.y
    else if a = off + 4 then e.acceleration.x
    else if a = off + 5 then e.acceleration.y
    else buf a

/-- The `recordFrame` entity loop: entity `i` of the frame is written at
`base + i*6`, for `i < limit`. -/
def storeEntities : (ℤ → ℝ) → ℤ → ℕ → ℕ → List KineticState → (ℤ → ℝ)
  | buf, _, _, _, [] => buf
  | buf, base, i, limit, e :: rest =>
      if i < limit then
        storeEntities (storeEntity buf (base + (i : ℤ) * 6) e) base (i + 1) limit rest
      else buf

/-- `recordFrame(entities)`: write the frame at the head slot, advance the
head modulo capacity, saturate `recordedFrames` at `maxFrames`, snap the
playback cursor to the head. -/
def recordFrame (b : ChronosBuffer) (es : List KineticState) : ChronosBuffer :=
  if b.isRecording then
    let frameOffset : ℤ := (b.headIndex : ℤ) * ((b.entityCount : ℤ) * 6)
    let limit := min es.length b.entityCount
    let buf2 := storeEntities b.buffer frameOffset 0 limit es
    let head2 := (b.headIndex + 1) % b.maxFrames
    { b with buffer := buf2, headIndex := head2,
             recordedFrames := min (b.recordedFrames + 1) b.maxFrames,
             playbackIndex := head2 }
  else b

/-- The `replayFrame` entity loop: overwrite position and velocity (never
acceleration) of entity `i` from the frame at `base`, for `i < limit`. -/
def hydrateEntities (buf : ℤ → ℝ) (base : ℤ) :
    ℕ → ℕ → List KineticState → List KineticState
  | _, _, [] => []
  | i, limit, e :: rest =>
      if i < limit then
        { e with position := ⟨buf (base + (i : ℤ) * 6 + 0), buf (base + (i : ℤ) * 6 + 1)⟩,
                 velocity := ⟨buf (base + (i : ℤ) * 6 + 2), buf (base + (i : ℤ) * 6 + 3)⟩ }
          :: hydrateEntities buf base (i + 1) limit rest
      else e :: rest

/-- `replayFrame(framesBack, entities)`: clamp the offset to
`[0, recordedFrames-1]`, walk backward from `head-1` modulo capacity, and
hydrate the caller-supplied entities; also moves the playback cursor. -/
def replayFrame (b : ChronosBuffer) (framesBack : ℕ) (es : List KineticState) :
    List KineticState × ChronosBuffer :=
  if b.recordedFrames = 0 then (es, b)
  else
    let clampedOffset := min framesBack (b.recordedFrames - 1)
    let targetFrame : ℤ :=
      ((b.headIndex : ℤ) - 1 - (clampedOffset : ℤ) + (b.maxFrames : ℤ)) % (b.maxFrames : ℤ)
    let frameOffset := targetFrame * ((b.entityCount : ℤ) * 6)
    (hydrateEntities b.buffer frameOffset 0 (min es.length b.entityCount) es,
     { b with playbackIndex := targetFrame.toNat })

/-- `scrub(percentage)`: clamp to [0, 1], map to
`floor(recordedFrames * (1 - pct))`, clamp into `[0, recordedFrames - 1]`. -/
def scrub (b : ChronosBuffer) (percentage : ℝ) : ℤ :=
  let clampedPct := max 0 (min 1 percentage)
  let offset := ⌊(b.recordedFrames : ℝ) * (1 - clampedPct)⌋
  max 0 (min offset ((b.recordedFrames : ℤ) - 1))

end ChronosBuffer

/-- Field `k` of the per-entity layout `[x, y, vx, vy, ax, ay]` (the LAYOUT
offsets of ChronosBuffer.ts). -/
def entityField (e : KineticState) : ℕ → ℝ
  | 0 => e.position.x
  | 1 => e.position.y
  | 2 => e.velocity.x
  | 3 => e.velocity.y
  | 4 => e.acceleration.x
  | _ => e.acceleration.y

/-- The capacity-600, 3-entity buffer of scenario D. -/
def chronos600 : ChronosBuffer := ChronosBuffer.create 600 3

/-- Three kinetic states recorded in scenario D. -/
def esThree : List KineticState := [stateA, stateB, stateA]

/-- The scenario-D buffer after recording exactly 10 frames. -/
def chronosAfter10 : ChronosBuffer :=
  (fun b => ChronosBuffer.recordFrame b esThree)^[10] chronos600

/-- Fresh cognitive packets (IDLE_DRIFT, no target, anxiety 0, wander angle 0)
for every entity id, as `initializeParticles` creates them. -/
def packetsAB : String → Option CognitivePacket :=
  fun _ => some ⟨CortexState.IDLE_DRIFT, none, 0, 0, 0, []⟩

-- ════════════════════════════════════════════════════════════════════════════
-- END OF DEFINITIONS / START OF THEOREMS
-- ════════════════════════════════════════════════════════════════════════════

-- ════════════════════════════════════════════════════════════════════════════
-- Basic facts about the vector algebra (shared helper lemmas)
-- ════════════════════════════════════════════════════════════════════════════

lemma Vector2D.magnitude_nonneg (v : Vector2D) : 0 ≤ v.magnitude :=
  Real.sqrt_nonneg _

lemma Vector2D.magnitude_eq_zero_iff (v : Vector2D) :
    v.magnitude = 0 ↔ v = Vector2D.zero := by
  obtain ⟨a, b⟩ := v
  unfold Vector2D.magnitude Vector2D.zero
  rw [Real.sqrt_eq_zero']
  constructor
  · intro hle
    have ha : a = 0 := by nlinarith [mul_self_nonneg a, mul_self_nonneg b]
    have hb : b = 0 := by nlinarith [mul_self_nonneg a, mul_self_nonneg b]
    simp [ha, hb]
  · intro hv
    rw [Vector2D.mk.injEq] at hv
    simp [hv.1, hv.2]

lemma Vector2D.sq_magnitude (v : Vector2D) :
    v.magnitude * v.magnitude = v.x * v.x + v.y * v.y :=
  Real.mul_self_sqrt (add_nonneg (mul_self_nonneg _) (mul_self_nonneg _))

lemma Vector2D.magnitude_multiply (v : Vector2D) (c : ℝ) :
    (v.multiply c).magnitude = |c| * v.magnitude := by
  unfold Vector2D.magnitude Vector2D.multiply
  rw [show v.x * c * (v.x * c) + v.y * c * (v.y * c)
        = c ^ 2 * (v.x * v.x + v.y * v.y) by ring]
  rw [Real.sqrt_mul (by positivity), Real.sqrt_sq_eq_abs]

lemma Vector2D.normalize_eq_smul (v : Vector2D) (h : v.magnitude ≠ 0) :
    v.normalize = ⟨v.x / v.magnitude, v.y / v.magnitude⟩ := by
  unfold Vector2D.normalize Vector2D.divide
  rw [if_neg h, if_neg h]

lemma Vector2D.magnitude_normalize (v : Vector2D) (h : v.magnitude ≠ 0) :
    v.normalize.magnitude = 1 := by
  rw [Vector2D.normalize_eq_smul v h]
  show Real.sqrt (v.x / v.magnitude * (v.x / v.magnitude) +
    v.y / v.magnitude * (v.y / v.magnitude)) = 1
  rw [show v.x / v.magnitude * (v.x / v.magnitude) + v.y / v.magnitude * (v.y / v.magnitude)
        = (v.x * v.x + v.y * v.y) / (v.magnitude * v.magnitude) by ring]
  rw [← Vector2D.sq_magnitude v, div_self (mul_ne_zero h h)]
  exact Real.sqrt_one

-- ════════════════════════════════════════════════════════════════════════════
-- More shared vector lemmas
-- ════════════════════════════════════════════════════════════════════════════

lemma Vector2D.subtract_eq_zero_iff (v w : Vector2D) :
    v.subtract w = Vector2D.zero ↔ v = w := by
  obtain ⟨a, b⟩ := v
  obtain ⟨c, d⟩ := w
  unfold Vector2D.subtract Vector2D.zero
  rw [Vector2D.mk.injEq, Vector2D.mk.injEq]
  constructor
  · rintro ⟨h1, h2⟩
    constructor <;> linarith
  · rintro ⟨h1, h2⟩
    constructor <;> linarith

lemma Vector2D.zero_multiply (c : ℝ) : Vector2D.zero.multiply c = Vector2D.zero := by
  unfold Vector2D.multiply Vector2D.zero
  simp

lemma Vector2D.normalize_zero : Vector2D.zero.normalize = Vector2D.zero := by
  unfold Vector2D.normalize
  rw [if_pos ((Vector2D.magnitude_eq_zero_iff Vector2D.zero).mpr rfl)]

/-- Magnitude of a unit direction scaled by a nonnegative factor is that factor. -/
lemma Vector2D.magnitude_normalize_multiply (v : Vector2D) (c : ℝ)
    (hv : v.magnitude ≠ 0) (hc : 0 ≤ c) :
    (v.normalize.multiply c).magnitude = c := by
  rw [Vector2D.magnitude_multiply, Vector2D.magnitude_normalize v hv, mul_one, abs_of_nonneg hc]

/-- The square-root of the squared displacement is the displacement magnitude. -/
lemma coulomb_distance_eq (p1 p2 : KineticState) :
    Real.sqrt (p1.position.subtract p2.position).magnitudeSquared
      = p1.position.distanceTo p2.position := rfl

/-- In-range unfolding of `CoulombForceGenerator.calculate`. -/
lemma CoulombForceGenerator.calculate_in_range (g : CoulombForceGenerator)
    (p1 p2 : KineticState)
    (h1 : ¬ p1.position.distanceTo p2.position < g.minDistance)
    (h2 : ¬ p1.position.distanceTo p2.position > g.maxDistance) :
    g.calculate p1 p2 = (p1.position.subtract p2.position).normalize.multiply
      (g.k * p1.mass * p2.mass
        / ((p1.position.subtract p2.position).magnitudeSquared + g.softening * g.softening)) := by
  simp only [CoulombForceGenerator.calculate, coulomb_distance_eq]
  rw [if_neg h1, if_neg h2]


-- ════════════════════════════════════════════════════════════════════════════
-- C8: normalize and divide-by-zero behaviour
-- ════════════════════════════════════════════════════════════════════════════

/-- C8: for every vector `v`, `normalize(v)` has magnitude exactly 1 (hence within
any epsilon) when `v` has nonzero magnitude; `normalize` returns the zero vector
when the magnitude is exactly zero; and dividing any vector by the scalar zero
yields the zero vector rather than an error. -/
theorem c8_normalize_divide_fallback (v : Vector2D) :
    (v.magnitude ≠ 0 → v.normalize.magnitude = 1) ∧
    (v.magnitude = 0 → v.normalize = Vector2D.zero) ∧
    v.divide 0 = Vector2D.zero := by
  refine ⟨fun h => Vector2D.magnitude_normalize v h, fun h => ?_, ?_⟩
  · unfold Vector2D.normalize
    rw [if_pos h]
  · unfold Vector2D.divide
    rw [if_pos rfl]

/-- C8 witness: the vector (3, 4) has magnitude 5 ≠ 0 and its normalization has
magnitude 1; the zero vector has magnitude 0 and normalizes to itself; dividing
by zero gives the zero vector. -/
theorem c8_normalize_divide_fallback_witness :
    (⟨3, 4⟩ : Vector2D).magnitude ≠ 0 ∧
    (⟨3, 4⟩ : Vector2D).normalize.magnitude = 1 ∧
    Vector2D.zero.magnitude = 0 ∧
    Vector2D.zero.normalize = Vector2D.zero ∧
    (⟨3, 4⟩ : Vector2D).divide 0 = Vector2D.zero := by
  have hm : (⟨3, 4⟩ : Vector2D).magnitude = 5 := by
    unfold Vector2D.magnitude
    rw [show (3:ℝ) * 3 + 4 * 4 = 5 ^ 2 by norm_num, Real.sqrt_sq (by norm_num)]
  have h : (⟨3, 4⟩ : Vector2D).magnitude ≠ 0 := by rw [hm]; norm_num
  have hz : Vector2D.zero.magnitude = 0 := by
    unfold Vector2D.magnitude Vector2D.zero
    simp
  exact ⟨h, (c8_normalize_divide_fallback ⟨3, 4⟩).1 h, hz,
    (c8_normalize_divide_fallback Vector2D.zero).2.1 hz,
    (c8_normalize_divide_fallback ⟨3, 4⟩).2.2⟩

-- ════════════════════════════════════════════════════════════════════════════
-- C6: degenerate mass ≤ 0 handling
-- ════════════════════════════════════════════════════════════════════════════

/-- C6: for every kinetic state with mass ≤ 0, one integrate call leaves
position and velocity unchanged and sets acceleration to the zero vector, and
on such a state applyForce and applyImpulse leave the state entirely
unchanged. -/
theorem c6_mass_nonpositive_noop (integ : NewtonianIntegrator) (s : KineticState)
    (dt : ℝ) (force impulse : Vector2D) (h : s.mass ≤ 0) :
    (integ.integrate s dt).position = s.position ∧
    (integ.integrate s dt).velocity = s.velocity ∧
    (integ.integrate s dt).acceleration = Vector2D.zero ∧
    NewtonianIntegrator.applyForce s force = s ∧
    NewtonianIntegrator.applyImpulse s impulse = s := by
  unfold NewtonianIntegrator.integrate NewtonianIntegrator.applyForce
    NewtonianIntegrator.applyImpulse NewtonianIntegrator.resetAcceleration
  rw [if_pos h, if_pos h, if_pos h]
  exact ⟨rfl, rfl, rfl, rfl, rfl⟩

/-- C6 witness: a state of mass 0 at position (7, 8) with velocity (1, 2) is
left in place by the default integrator, its acceleration is zeroed, and
applyForce / applyImpulse do nothing. -/
theorem c6_mass_nonpositive_noop_witness :
    (0:ℝ) ≤ 0 ∧
    (let s : KineticState := ⟨⟨7, 8⟩, ⟨1, 2⟩, ⟨3, 4⟩, 0, 0.85, 20⟩
     (NewtonianIntegrator.default.integrate s 1).position = s.position ∧
     (NewtonianIntegrator.default.integrate s 1).velocity = s.velocity ∧
     (NewtonianIntegrator.default.integrate s 1).acceleration = Vector2D.zero ∧
     NewtonianIntegrator.applyForce s ⟨5, 6⟩ = s ∧
     NewtonianIntegrator.applyImpulse s ⟨5, 6⟩ = s) :=
  ⟨le_refl 0, c6_mass_nonpositive_noop NewtonianIntegrator.default _ 1 ⟨5, 6⟩ ⟨5, 6⟩ (le_refl 0)⟩

lemma Vector2D.magnitudeSquared_eq (v : Vector2D) :
    v.magnitudeSquared = v.magnitude * v.magnitude :=
  (Vector2D.sq_magnitude v).symm

-- ════════════════════════════════════════════════════════════════════════════
-- C7: repulsion force generator contract
-- ════════════════════════════════════════════════════════════════════════════

/-- C7: the repulsion generator returns the zero vector when the distance r
between the particle positions satisfies r < minDistance or r > maxDistance;
for minDistance ≤ r ≤ maxDistance (with a positive minDistance, as the
singularity guard presupposes) and positive masses, the returned force is
directed along normalize(pos1 - pos2) with magnitude
k·mass1·mass2 / (r² + softening²), and that magnitude is strictly increasing
in k. -/
theorem c7_coulomb_range_and_magnitude (g : CoulombForceGenerator) (p1 p2 : KineticState)
    (hmin : 0 < g.minDistance) (hm1 : 0 < p1.mass) (hm2 : 0 < p2.mass) (hk : 0 ≤ g.k) :
    (p1.position.distanceTo p2.position < g.minDistance →
      g.calculate p1 p2 = Vector2D.zero) ∧
    (p1.position.distanceTo p2.position > g.maxDistance →
      g.calculate p1 p2 = Vector2D.zero) ∧
    (g.minDistance ≤ p1.position.distanceTo p2.position →
     p1.position.distanceTo p2.position ≤ g.maxDistance →
      g.calculate p1 p2 = (p1.position.subtract p2.position).normalize.multiply
        (g.k * p1.mass * p2.mass
          / (p1.position.distanceTo p2.position * p1.position.distanceTo p2.position
              + g.softening * g.softening)) ∧
      (g.calculate p1 p2).magnitude
        = g.k * p1.mass * p2.mass
            / (p1.position.distanceTo p2.position * p1.position.distanceTo p2.position
                + g.softening * g.softening) ∧
      (∀ k1 k2 : ℝ, 0 ≤ k1 → k1 < k2 →
        ((g.withK k1).calculate p1 p2).magnitude
          < ((g.withK k2).calculate p1 p2).magnitude)) := by
  set r := p1.position.distanceTo p2.position with hr
  refine ⟨fun hlt => ?_, fun hgt => ?_, fun hge hle => ?_⟩
  · simp only [CoulombForceGenerator.calculate, coulomb_distance_eq, ← hr]
    rw [if_pos hlt]
  · by_cases hlt : r < g.minDistance
    · simp only [CoulombForceGenerator.calculate, coulomb_distance_eq, ← hr]
      rw [if_pos hlt]
    · simp only [CoulombForceGenerator.calculate, coulomb_distance_eq, ← hr]
      rw [if_neg hlt, if_pos hgt]
  · have hrpos : 0 < r := lt_of_lt_of_le hmin hge
    have hmag : (p1.position.subtract p2.position).magnitude = r := rfl
    have hmagne : (p1.position.subtract p2.position).magnitude ≠ 0 := by
      rw [hmag]; exact ne_of_gt hrpos
    have hDpos : 0 < r * r + g.softening * g.softening := by
      nlinarith [mul_self_nonneg g.softening]
    have hcalc : g.calculate p1 p2
        = (p1.position.subtract p2.position).normalize.multiply
            (g.k * p1.mass * p2.mass / (r * r + g.softening * g.softening)) := by
      rw [CoulombForceGenerator.calculate_in_range g p1 p2 (not_lt.mpr hge) (not_lt.mpr hle)]
      rw [Vector2D.magnitudeSquared_eq, hmag]
    refine ⟨hcalc, ?_, ?_⟩
    · rw [hcalc]
      exact Vector2D.magnitude_normalize_multiply _ _ hmagne
        (div_nonneg (mul_nonneg (mul_nonneg hk (le_of_lt hm1)) (le_of_lt hm2))
          (le_of_lt hDpos))
    · intro k1 k2 hk1 hk12
      have hcalc1 : (g.withK k1).calculate p1 p2
          = (p1.position.subtract p2.position).normalize.multiply
              (k1 * p1.mass * p2.mass / (r * r + g.softening * g.softening)) := by
        rw [CoulombForceGenerator.calculate_in_range (g.withK k1) p1 p2
          (not_lt.mpr hge) (not_lt.mpr hle)]
        rw [Vector2D.magnitudeSquared_eq, hmag]
        rfl
      have hcalc2 : (g.withK k2).calculate p1 p2
          = (p1.position.subtract p2.position).normalize.multiply
              (k2 * p1.mass * p2.mass / (r * r + g.softening * g.softening)) := by
        rw [CoulombForceGenerator.calculate_in_range (g.withK k2) p1 p2
          (not_lt.mpr hge) (not_lt.mpr hle)]
        rw [Vector2D.magnitudeSquared_eq, hmag]
        rfl
      rw [hcalc1, hcalc2,
        Vector2D.magnitude_normalize_multiply _ _ hmagne
          (div_nonneg (mul_nonneg (mul_nonneg hk1 (le_of_lt hm1)) (le_of_lt hm2))
            (le_of_lt hDpos)),
        Vector2D.magnitude_normalize_multiply _ _ hmagne
          (div_nonneg (mul_nonneg (mul_nonneg (le_of_lt (lt_of_le_of_lt hk1 hk12))
            (le_of_lt hm1)) (le_of_lt hm2)) (le_of_lt hDpos))]
      rw [div_lt_div_iff₀ hDpos hDpos]
      nlinarith [mul_pos (mul_pos (mul_pos (sub_pos.mpr hk12) hm1) hm2) hDpos]

lemma Vector2D.magnitude_zero : Vector2D.zero.magnitude = 0 := by
  unfold Vector2D.magnitude Vector2D.zero
  simp

lemma Vector2D.ne_zero_of_magnitude_pos (v : Vector2D) (h : 0 < v.magnitude) :
    v ≠ Vector2D.zero := by
  intro heq
  rw [heq, Vector2D.magnitude_zero] at h
  exact lt_irrefl 0 h

/-- C7 witness: the default generator and the unit-mass states at distance 5
satisfy every hypothesis; the in-range formula and the strict growth of the
magnitude from k = 5000 to k = 6000 are realized. -/
theorem c7_coulomb_range_and_magnitude_witness :
    0 < coulombDefault.minDistance ∧ 0 < stateA.mass ∧ 0 < stateB.mass ∧
    0 ≤ coulombDefault.k ∧
    coulombDefault.minDistance ≤ stateA.position.distanceTo stateB.position ∧
    stateA.position.distanceTo stateB.position ≤ coulombDefault.maxDistance ∧
    coulombDefault.calculate stateA stateB
      = (stateA.position.subtract stateB.position).normalize.multiply
          (coulombDefault.k * stateA.mass * stateB.mass
            / (stateA.position.distanceTo stateB.position
                * stateA.position.distanceTo stateB.position
                + coulombDefault.softening * coulombDefault.softening)) ∧
    ((coulombDefault.withK 5000).calculate stateA stateB).magnitude
      < ((coulombDefault.withK 6000).calculate stateA stateB).magnitude := by
  have hr : stateA.position.distanceTo stateB.position = 5 := by
    show Real.sqrt ((0 - 3) * (0 - 3) + (0 - 4) * (0 - 4)) = 5
    rw [show ((0:ℝ) - 3) * ((0:ℝ) - 3) + ((0:ℝ) - 4) * ((0:ℝ) - 4) = 5 ^ 2 by norm_num]
    exact Real.sqrt_sq (by norm_num)
  have hmin : (0:ℝ) < coulombDefault.minDistance := by norm_num [coulombDefault]
  have hm1 : (0:ℝ) < stateA.mass := by norm_num [stateA]
  have hm2 : (0:ℝ) < stateB.mass := by norm_num [stateB]
  have hk : (0:ℝ) ≤ coulombDefault.k := by norm_num [coulombDefault]
  have hge : coulombDefault.minDistance ≤ stateA.position.distanceTo stateB.position := by
    rw [hr]; norm_num [coulombDefault]
  have hle : stateA.position.distanceTo stateB.position ≤ coulombDefault.maxDistance := by
    rw [hr]; norm_num [coulombDefault]
  obtain ⟨-, -, h3⟩ := c7_coulomb_range_and_magnitude coulombDefault stateA stateB hmin hm1 hm2 hk
  obtain ⟨heq, -, hmono⟩ := h3 hge hle
  exact ⟨hmin, hm1, hm2, hk, hge, hle, heq, hmono 5000 6000 (by norm_num) (by norm_num)⟩

-- ════════════════════════════════════════════════════════════════════════════
-- C10: the orchestrator's inline repulsion has no cutoff, guard or softening
-- ════════════════════════════════════════════════════════════════════════════

/-- C10: the per-tick repulsion helper of the hook applies no maximum-distance
cutoff, no minimum-distance zero-guard and no softening: for distinct positions
at distance r it returns a nonzero force of magnitude
repulsionStrength·mass1·mass2 / max(r,1)², and the force is the zero vector
exactly when the two positions coincide. -/
theorem c10_hook_repulsion_no_cutoff (cfg : PhysicsConfig) (p1 p2 : Particle)
    (hk : 0 < cfg.repulsionStrength) (hm1 : 0 < p1.mass) (hm2 : 0 < p2.mass) :
    (p1.position ≠ p2.position →
      calculateRepulsion cfg p1 p2 ≠ Vector2D.zero ∧
      (calculateRepulsion cfg p1 p2).magnitude
        = cfg.repulsionStrength * p1.mass * p2.mass
          / (max (p1.position.distanceTo p2.position) 1
              * max (p1.position.distanceTo p2.position) 1)) ∧
    (p1.position = p2.position → calculateRepulsion cfg p1 p2 = Vector2D.zero) := by
  constructor
  · intro hne
    have hdne : p1.position.subtract p2.position ≠ Vector2D.zero := by
      intro h
      exact hne ((Vector2D.subtract_eq_zero_iff _ _).mp h)
    have hmagne : (p1.position.subtract p2.position).magnitude ≠ 0 := by
      intro h
      exact hdne ((Vector2D.magnitude_eq_zero_iff _).mp h)
    have hdenpos : 0 < max (p1.position.subtract p2.position).magnitude 1
        * max (p1.position.subtract p2.position).magnitude 1 := by
      have h1 : (1:ℝ) ≤ max (p1.position.subtract p2.position).magnitude 1 :=
        le_max_right _ _
      nlinarith
    have hcpos : 0 < cfg.repulsionStrength * p1.mass * p2.mass
        / (max (p1.position.subtract p2.position).magnitude 1
            * max (p1.position.subtract p2.position).magnitude 1) := by
      apply div_pos (by positivity) hdenpos
    have hmag : (calculateRepulsion cfg p1 p2).magnitude
        = cfg.repulsionStrength * p1.mass * p2.mass
          / (max (p1.position.subtract p2.position).magnitude 1
              * max (p1.position.subtract p2.position).magnitude 1) := by
      simp only [calculateRepulsion]
      exact Vector2D.magnitude_normalize_multiply _ _ hmagne (le_of_lt hcpos)
    refine ⟨?_, ?_⟩
    · intro hzero
      rw [hzero, Vector2D.magnitude_zero] at hmag
      exact ne_of_gt hcpos hmag.symm
    · simp only [Vector2D.distanceTo]
      exact hmag
  · intro heq
    simp only [calculateRepulsion]
    rw [(Vector2D.subtract_eq_zero_iff _ _).mpr heq, Vector2D.normalize_zero,
      Vector2D.zero_multiply]

/-- C10 witness: with the default configuration and the unit-mass particles at
(300, 300) and (310, 300), the repulsion force is nonzero with the stated
magnitude, and the hypotheses are concretely satisfied. -/
theorem c10_hook_repulsion_no_cutoff_witness :
    0 < DEFAULT_CONFIG.repulsionStrength ∧ 0 < particleA.mass ∧ 0 < particleB.mass ∧
    particleA.position ≠ particleB.position ∧
    calculateRepulsion DEFAULT_CONFIG particleA particleB ≠ Vector2D.zero ∧
    (calculateRepulsion DEFAULT_CONFIG particleA particleB).magnitude
      = DEFAULT_CONFIG.repulsionStrength * particleA.mass * particleB.mass
        / (max (particleA.position.distanceTo particleB.position) 1
            * max (particleA.position.distanceTo particleB.position) 1) := by
  have hk : (0:ℝ) < DEFAULT_CONFIG.repulsionStrength := by norm_num [DEFAULT_CONFIG]
  have hm1 : (0:ℝ) < particleA.mass := by norm_num [particleA]
  have hm2 : (0:ℝ) < particleB.mass := by norm_num [particleB]
  have hne : particleA.position ≠ particleB.position := by
    intro h
    have hx : (300:ℝ) = 310 := congrArg Vector2D.x h
    norm_num at hx
  obtain ⟨h1, -⟩ := c10_hook_repulsion_no_cutoff DEFAULT_CONFIG particleA particleB hk hm1 hm2
  obtain ⟨hnz, hmag⟩ := h1 hne
  exact ⟨hk, hm1, hm2, hne, hnz, hmag⟩

lemma Vector2D.multiply_one (v : Vector2D) : v.multiply 1 = v := by
  unfold Vector2D.multiply
  simp

lemma Vector2D.magnitude_mk_x (a : ℝ) (h : 0 ≤ a) :
    (⟨a, 0⟩ : Vector2D).magnitude = a := by
  unfold Vector2D.magnitude
  rw [show a * a + 0 * 0 = a ^ 2 by ring]
  exact Real.sqrt_sq h

-- ════════════════════════════════════════════════════════════════════════════
-- C2: orchestrator Phase C versus the integrator pipeline
-- ════════════════════════════════════════════════════════════════════════════

/-- C2 counterexample: for particle C (unit mass, damping 0.85, pending
acceleration (1, 0), at the canvas center so center gravity vanishes), the
orchestrator's Phase C produces position (400.85, 300) while the integrator
pipeline (semi-implicit Euler, damping after the position update) followed by
the axis clamp produces (401, 300): the claimed equivalence fails. -/
theorem c2_counterexample_phaseC_differs :
    (phaseCStep DEFAULT_CONFIG 800 600 particleC).position
      ≠ (specIntegratePath NewtonianIntegrator.default DEFAULT_CONFIG 800 600 particleC).position := by
  have hphase : (phaseCStep DEFAULT_CONFIG 800 600 particleC).position = ⟨400.85, 300⟩ := by
    simp only [phaseCStep, calculateCenterGravity, particleC, DEFAULT_CONFIG,
      Vector2D.subtract, Vector2D.multiply, Vector2D.divide, Vector2D.add, Vector2D.zero]
    norm_num [max_def, min_def]
  have hspec : (specIntegratePath NewtonianIntegrator.default DEFAULT_CONFIG 800 600 particleC).position
      = ⟨401, 300⟩ := by
    have hmag : (⟨(17:ℝ)/20, 0⟩ : Vector2D).magnitude = 17/20 :=
      Vector2D.magnitude_mk_x ((17:ℝ)/20) (by norm_num)
    simp only [specIntegratePath, NewtonianIntegrator.integrate,
      NewtonianIntegrator.default, NewtonianIntegrator.integrateSemiImplicitEuler,
      NewtonianIntegrator.applyDamping, NewtonianIntegrator.clampVelocity,
      NewtonianIntegrator.applyVelocityThreshold, NewtonianIntegrator.resetAcceleration,
      calculateCenterGravity, particleC, DEFAULT_CONFIG,
      Vector2D.subtract, Vector2D.multiply, Vector2D.divide, Vector2D.add, Vector2D.zero]
    norm_num [hmag, max_def, min_def]
  rw [hphase, hspec]
  intro h
  have hx : (400.85:ℝ) = 401 := congrArg Vector2D.x h
  norm_num at hx

/-- Under damping 1 and a speed inside the clamp window, the default
integrator step is plain semi-implicit Euler plus an acceleration reset. -/
lemma NewtonianIntegrator.integrate_default_plain (s : KineticState)
    (hm : 0 < s.mass) (hd : s.damping = 1)
    (hmax : (s.velocity.add s.acceleration).magnitude ≤ 50)
    (hmin : (0.001:ℝ) ≤ (s.velocity.add s.acceleration).magnitude) :
    NewtonianIntegrator.default.integrate s 1
      = { s with velocity := s.velocity.add s.acceleration,
                 position := s.position.add (s.velocity.add s.acceleration),
                 acceleration := Vector2D.zero } := by
  have hsemi : NewtonianIntegrator.integrateSemiImplicitEuler s 1
      = { s with velocity := s.velocity.add s.acceleration,
                 position := s.position.add (s.velocity.add s.acceleration) } := by
    simp only [NewtonianIntegrator.integrateSemiImplicitEuler, Vector2D.multiply_one]
  unfold NewtonianIntegrator.integrate
  rw [if_neg (not_le.mpr hm)]
  show NewtonianIntegrator.resetAcceleration
      (NewtonianIntegrator.default.applyVelocityThreshold
        (NewtonianIntegrator.default.clampVelocity
          (NewtonianIntegrator.applyDamping
            (NewtonianIntegrator.integrateSemiImplicitEuler s 1)))) = _
  rw [hsemi]
  have hdamp : NewtonianIntegrator.applyDamping
      { s with velocity := s.velocity.add s.acceleration,
               position := s.position.add (s.velocity.add s.acceleration) }
      = { s with velocity := s.velocity.add s.acceleration,
                 position := s.position.add (s.velocity.add s.acceleration) } := by
    unfold NewtonianIntegrator.applyDamping
    simp [hd]
  rw [hdamp]
  have hclamp : NewtonianIntegrator.default.clampVelocity
      { s with velocity := s.velocity.add s.acceleration,
               position := s.position.add (s.velocity.add s.acceleration) }
      = { s with velocity := s.velocity.add s.acceleration,
                 position := s.position.add (s.velocity.add s.acceleration) } := by
    unfold NewtonianIntegrator.clampVelocity
    rw [if_neg]
    exact not_lt.mpr hmax
  rw [hclamp]
  have hth : NewtonianIntegrator.default.applyVelocityThreshold
      { s with velocity := s.velocity.add s.acceleration,
               position := s.position.add (s.velocity.add s.acceleration) }
      = { s with velocity := s.velocity.add s.acceleration,
                 position := s.position.add (s.velocity.add s.acceleration) } := by
    unfold NewtonianIntegrator.applyVelocityThreshold
    rw [if_neg]
    exact not_lt.mpr hmin
  rw [hth]
  rfl

/-- C2 corrected: if the configured damping and the particle's damping factor
are both 1 and the updated speed lies between the integrator's rest threshold
(0.001) and its maximum velocity (50), the orchestrator's gravity + Phase C
update produces the same final position and velocity as the default
semi-implicit-Euler integrate step followed by the axis clamp. -/
theorem c2_phaseC_refines_integrator_when_damping_one
    (cfg : PhysicsConfig) (W H : ℝ) (p : Particle) (hm : 0 < p.mass)
    (hcfg : cfg.damping = 1) (hpd : p.damping = 1)
    (hmax : (p.velocity.add (p.acceleration.add
      ((calculateCenterGravity cfg W H p).divide p.mass))).magnitude ≤ 50)
    (hmin : (0.001:ℝ) ≤ (p.velocity.add (p.acceleration.add
      ((calculateCenterGravity cfg W H p).divide p.mass))).magnitude) :
    (phaseCStep cfg W H p).position
      = (specIntegratePath NewtonianIntegrator.default cfg W H p).position ∧
    (phaseCStep cfg W H p).velocity
      = (specIntegratePath NewtonianIntegrator.default cfg W H p).velocity := by
  have hspec : specIntegratePath NewtonianIntegrator.default cfg W H p
      = { p with
            acceleration := Vector2D.zero,
            velocity := p.velocity.add (p.acceleration.add
              ((calculateCenterGravity cfg W H p).divide p.mass)),
            position :=
              ⟨max p.radius (min (W - p.radius)
                ((p.position.add (p.velocity.add (p.acceleration.add
                  ((calculateCenterGravity cfg W H p).divide p.mass)))).x)),
               max p.radius (min (H - p.radius)
                ((p.position.add (p.velocity.add (p.acceleration.add
                  ((calculateCenterGravity cfg W H p).divide p.mass)))).y))⟩ } := by
    simp only [specIntegratePath]
    rw [NewtonianIntegrator.integrate_default_plain { p.toKineticState with acceleration := p.acceleration.add ((calculateCenterGravity cfg W H p).divide p.mass) } hm hpd hmax hmin]
  have hphase : phaseCStep cfg W H p
      = { p with
            acceleration := p.acceleration.add
              ((calculateCenterGravity cfg W H p).divide p.mass),
            velocity := p.velocity.add (p.acceleration.add
              ((calculateCenterGravity cfg W H p).divide p.mass)),
            position :=
              ⟨max p.radius (min (W - p.radius)
                ((p.position.add (p.velocity.add (p.acceleration.add
                  ((calculateCenterGravity cfg W H p).divide p.mass)))).x)),
               max p.radius (min (H - p.radius)
                ((p.position.add (p.velocity.add (p.acceleration.add
                  ((calculateCenterGravity cfg W H p).divide p.mass)))).y))⟩ } := by
    simp only [phaseCStep, hcfg, Vector2D.multiply_one]
  rw [hspec, hphase]
  exact ⟨rfl, rfl⟩

/-- C2 witness: particle D (damping 1, acceleration (1, 0)) under the
damping-1 configuration satisfies every hypothesis, and Phase C agrees with
the integrator pipeline on position and velocity. -/
theorem c2_phaseC_refines_integrator_when_damping_one_witness :
    0 < particleD.mass ∧ configD1.damping = 1 ∧ particleD.damping = 1 ∧
    (particleD.velocity.add (particleD.acceleration.add
      ((calculateCenterGravity configD1 800 600 particleD).divide particleD.mass))).magnitude
        ≤ 50 ∧
    (0.001:ℝ) ≤ (particleD.velocity.add (particleD.acceleration.add
      ((calculateCenterGravity configD1 800 600 particleD).divide particleD.mass))).magnitude ∧
    (phaseCStep configD1 800 600 particleD).position
      = (specIntegratePath NewtonianIntegrator.default configD1 800 600 particleD).position ∧
    (phaseCStep configD1 800 600 particleD).velocity
      = (specIntegratePath NewtonianIntegrator.default configD1 800 600 particleD).velocity := by
  have hv1 : particleD.velocity.add (particleD.acceleration.add
      ((calculateCenterGravity configD1 800 600 particleD).divide particleD.mass))
      = (⟨1, 0⟩ : Vector2D) := by
    simp only [calculateCenterGravity, particleD, configD1, Vector2D.subtract,
      Vector2D.multiply, Vector2D.divide, Vector2D.add, Vector2D.zero]
    norm_num
  have hmagv : (particleD.velocity.add (particleD.acceleration.add
      ((calculateCenterGravity configD1 800 600 particleD).divide particleD.mass))).magnitude
      = 1 := by
    rw [hv1]
    exact Vector2D.magnitude_mk_x 1 (by norm_num)
  have hm : (0:ℝ) < particleD.mass := by norm_num [particleD]
  have hcfg : configD1.damping = 1 := rfl
  have hpd : particleD.damping = 1 := rfl
  have hmax : (particleD.velocity.add (particleD.acceleration.add
      ((calculateCenterGravity configD1 800 600 particleD).divide particleD.mass))).magnitude
      ≤ 50 := by rw [hmagv]; norm_num
  have hmin : (0.001:ℝ) ≤ (particleD.velocity.add (particleD.acceleration.add
      ((calculateCenterGravity configD1 800 600 particleD).divide particleD.mass))).magnitude := by
    rw [hmagv]; norm_num
  obtain ⟨h1, h2⟩ := c2_phaseC_refines_integrator_when_damping_one configD1 800 600 particleD
    hm hcfg hpd hmax hmin
  exact ⟨hm, hcfg, hpd, hmax, hmin, h1, h2⟩

-- ════════════════════════════════════════════════════════════════════════════
-- C4: ORBITAL_LOCK exit condition
-- ════════════════════════════════════════════════════════════════════════════

/-- C4 counterexample: particle A orbits target id "X", which is not
resolvable among the neighbors [A, B]; a throttled evaluation runs at tick 16,
yet the packet stays in ORBITAL_LOCK with target "X" — the code only checks
whether the nearest-neighbor probe found any other entity, not whether the
target id resolves. -/
theorem c4_counterexample_unresolvable_target_keeps_orbit :
    List.find? (fun n => n.id == "X") [particleA, particleB] = none ∧
    ((16:ℤ) - ((packetOrbital.lastDecisionTick : ℤ)) > 15) ∧
    (CortexEngine.process particleA packetOrbital [particleA, particleB] 16 0 0 0).2.state
      = CortexState.ORBITAL_LOCK ∧
    (CortexEngine.process particleA packetOrbital [particleA, particleB] 16 0 0 0).2.targetId
      = some "X" := by
  have hBA : ("B" : String) ≠ "A" := by decide
  have hAX : (("A" : String) == "X") = false := by decide
  have hBX : (("B" : String) == "X") = false := by decide
  refine ⟨?_, by norm_num [packetOrbital], ?_, ?_⟩
  · simp [particleA, particleB, hAX, hBX]
  all_goals
    simp only [CortexEngine.process, CortexEngine.updateAnxiety,
      CortexEngine.updateMemory, CortexEngine.findNearestNeighbor,
      CortexEngine.evaluateStateTransition, CortexEngine.executeBehavior,
      packetOrbital, particleA, particleB, List.foldl]
    norm_num [hBA]
    rw [if_neg (by simp)]

/-- C4 corrected: a throttled evaluation moves an ORBITAL_LOCK packet to
IDLE_DRIFT and clears the target exactly when the target reference is cleared
or the nearest-neighbor probe finds no other entity at all (the neighbor set
holds no entity with a different id); unresolvability of the target id alone
does not trigger the transition. -/
theorem c4_orbital_lock_exit (e : Particle) (c : CognitivePacket)
    (ns : List Particle) (tick : ℕ) (chance freshW jitter : ℝ)
    (hstate : c.state = CortexState.ORBITAL_LOCK)
    (hthrottle : (tick : ℤ) - (c.lastDecisionTick : ℤ) > 15)
    (hcond : c.targetId = none ∨ CortexEngine.findNearestNeighbor e ns = none) :
    (CortexEngine.process e c ns tick chance freshW jitter).2.state
      = CortexState.IDLE_DRIFT ∧
    (CortexEngine.process e c ns tick chance freshW jitter).2.targetId = none := by
  obtain ⟨st, tid, anx, ldt, wa, mem⟩ := c
  simp only [CognitivePacket.state] at hstate
  subst hstate
  simp only [CognitivePacket.lastDecisionTick] at hthrottle
  simp only [CognitivePacket.targetId] at hcond
  simp only [CortexEngine.process, CortexEngine.updateAnxiety,
    CortexEngine.updateMemory]
  rw [if_pos hthrottle]
  simp only [CortexEngine.evaluateStateTransition]
  rw [if_pos hcond]
  simp [CortexEngine.executeBehavior]

/-- C4 witness: particle A alone (no other entity) with an orbital packet on
target "X" at tick 16 satisfies the hypotheses, and the transition to
IDLE_DRIFT with a cleared target takes place. -/
theorem c4_orbital_lock_exit_witness :
    packetOrbital.state = CortexState.ORBITAL_LOCK ∧
    ((16:ℤ) - (packetOrbital.lastDecisionTick : ℤ) > 15) ∧
    (packetOrbital.targetId = none ∨
      CortexEngine.findNearestNeighbor particleA [particleA] = none) ∧
    (CortexEngine.process particleA packetOrbital [particleA] 16 0 0 0).2.state
      = CortexState.IDLE_DRIFT ∧
    (CortexEngine.process particleA packetOrbital [particleA] 16 0 0 0).2.targetId
      = none := by
  have hstate : packetOrbital.state = CortexState.ORBITAL_LOCK := rfl
  have hthrottle : (16:ℤ) - (packetOrbital.lastDecisionTick : ℤ) > 15 := by
    norm_num [packetOrbital]
  have hnn : CortexEngine.findNearestNeighbor particleA [particleA] = none := by
    simp [CortexEngine.findNearestNeighbor, particleA]
  obtain ⟨h1, h2⟩ := c4_orbital_lock_exit particleA packetOrbital [particleA] 16 0 0 0
    hstate hthrottle (Or.inr hnn)
  exact ⟨hstate, hthrottle, Or.inr hnn, h1, h2⟩

-- ════════════════════════════════════════════════════════════════════════════
-- C9: the anxiety scalar stays in [0, 1]
-- ════════════════════════════════════════════════════════════════════════════

/-- The crowd-density fold never goes below its accumulator. -/
lemma crowd_density_foldl_nonneg (e : Particle) (l : List Particle) (acc : ℝ)
    (h : 0 ≤ acc) :
    0 ≤ l.foldl (fun acc n =>
      if n.id = e.id then acc
      else
        let dist := e.position.distanceTo n.position
        if dist < 150 ∧ dist > 0 then acc + (1 - dist / 150) * (1 - dist / 150)
        else acc) acc := by
  induction l generalizing acc with
  | nil => exact h
  | cons n rest ih =>
      simp only [List.foldl]
      apply ih
      split_ifs with h1 h2
      · exact h
      · exact add_nonneg h (mul_self_nonneg _)
      · exact h

/-- The normalized crowd density lies in [0, 1]. -/
lemma calculateCrowdDensity_mem (e : Particle) (ns : List Particle) :
    0 ≤ CortexEngine.calculateCrowdDensity e ns ∧
    CortexEngine.calculateCrowdDensity e ns ≤ 1 := by
  unfold CortexEngine.calculateCrowdDensity
  constructor
  · apply le_min (by norm_num)
    exact div_nonneg (crowd_density_foldl_nonneg e ns 0 (le_refl 0)) (by norm_num)
  · exact min_le_left _ _

/-- `updateAnxiety` keeps the anxiety scalar in [0, 1]. -/
lemma updateAnxiety_mem (c : CognitivePacket) (d : ℝ)
    (h0 : 0 ≤ c.anxietyLevel) (hd : 0 ≤ d) :
    0 ≤ (CortexEngine.updateAnxiety c d).anxietyLevel ∧
    (CortexEngine.updateAnxiety c d).anxietyLevel ≤ 1 := by
  unfold CortexEngine.updateAnxiety
  constructor
  · apply le_min (by norm_num)
    nlinarith
  · exact min_le_left _ _

/-- Every branch of `evaluateStateTransition` keeps anxiety in [0, 1]. -/
lemma evaluateStateTransition_anxiety_mem (c : CognitivePacket) (d : ℝ)
    (nn : Option Particle) (chance freshW : ℝ)
    (h0 : 0 ≤ c.anxietyLevel) (h1 : c.anxietyLevel ≤ 1) :
    0 ≤ (CortexEngine.evaluateStateTransition c d nn chance freshW).anxietyLevel ∧
    (CortexEngine.evaluateStateTransition c d nn chance freshW).anxietyLevel ≤ 1 := by
  obtain ⟨st, tid, anx, ldt, wa, mem⟩ := c
  simp only [CognitivePacket.anxietyLevel] at h0 h1
  cases st <;>
    simp only [CortexEngine.evaluateStateTransition] <;>
    split_ifs <;>
    simp_all

/-- `executeBehavior` never changes the anxiety scalar. -/
lemma executeBehavior_anxiety (e : Particle) (c : CognitivePacket)
    (ns : List Particle) (tick : ℕ) (jitter : ℝ) :
    (CortexEngine.executeBehavior e c ns tick jitter).2.anxietyLevel
      = c.anxietyLevel := by
  obtain ⟨st, tid, anx, ldt, wa, mem⟩ := c
  cases st <;> simp [CortexEngine.executeBehavior, CortexEngine.behaviorWander]

/-- C9: every Cortex operation preserves the invariant anxiety ∈ [0, 1]: a
fresh packet has anxiety 0; one process step (anxiety decay-and-accumulate,
throttled transitions including the reset on leaving EVADING_CROWD, behavior
execution) keeps anxiety in [0, 1] — the crowd density computed inside process
always lies in [0, 1]; and the external mutators never touch anxiety. -/
theorem c9_anxiety_invariant (r : ℝ) (e : Particle) (c : CognitivePacket)
    (ns : List Particle) (tick : ℕ) (chance freshW jitter : ℝ)
    (h0 : 0 ≤ c.anxietyLevel) (h1 : c.anxietyLevel ≤ 1) :
    (CortexEngine.createCognitivePacket r).anxietyLevel = 0 ∧
    (0 ≤ (CortexEngine.process e c ns tick chance freshW jitter).2.anxietyLevel ∧
     (CortexEngine.process e c ns tick chance freshW jitter).2.anxietyLevel ≤ 1) ∧
    (CortexEngine.setTarget c "t").anxietyLevel = c.anxietyLevel ∧
    (CortexEngine.setOrbit c "t").anxietyLevel = c.anxietyLevel ∧
    (CortexEngine.clearTarget c).anxietyLevel = c.anxietyLevel := by
  refine ⟨rfl, ?_, rfl, rfl, rfl⟩
  obtain ⟨hd0, hd1⟩ := calculateCrowdDensity_mem e ns
  obtain ⟨ha0, ha1⟩ :=
    updateAnxiety_mem c (CortexEngine.calculateCrowdDensity e ns) h0 hd0
  simp only [CortexEngine.process]
  rw [executeBehavior_anxiety]
  split_ifs with hth
  · have := evaluateStateTransition_anxiety_mem
      (CortexEngine.updateMemory
        (CortexEngine.updateAnxiety c (CortexEngine.calculateCrowdDensity e ns))
        e.position)
      (CortexEngine.calculateCrowdDensity e ns)
      (CortexEngine.findNearestNeighbor e ns) chance freshW
      (by simpa [CortexEngine.updateMemory] using ha0)
      (by simpa [CortexEngine.updateMemory] using ha1)
    simpa [CortexEngine.updateMemory] using this
  · constructor
    · simpa [CortexEngine.updateMemory] using ha0
    · simpa [CortexEngine.updateMemory] using ha1

/-- C9 witness: an empty-neighborhood process step on particle A with a fresh
packet keeps anxiety inside [0, 1], and every mutator is anxiety-neutral. -/
theorem c9_anxiety_invariant_witness :
    0 ≤ (CortexEngine.createCognitivePacket 0).anxietyLevel ∧
    (CortexEngine.createCognitivePacket 0).anxietyLevel ≤ 1 ∧
    (CortexEngine.createCognitivePacket 0).anxietyLevel = 0 ∧
    (0 ≤ (CortexEngine.process particleA (CortexEngine.createCognitivePacket 0)
        [particleA] 0 0 0 0).2.anxietyLevel ∧
     (CortexEngine.process particleA (CortexEngine.createCognitivePacket 0)
        [particleA] 0 0 0 0).2.anxietyLevel ≤ 1) ∧
    (CortexEngine.setTarget (CortexEngine.createCognitivePacket 0) "t").anxietyLevel
      = (CortexEngine.createCognitivePacket 0).anxietyLevel := by
  have h0 : 0 ≤ (CortexEngine.createCognitivePacket 0).anxietyLevel := le_refl 0
  have h1 : (CortexEngine.createCognitivePacket 0).anxietyLevel ≤ 1 := by
    norm_num [CortexEngine.createCognitivePacket]
  obtain ⟨hc, hp, hs, -, -⟩ := c9_anxiety_invariant 0 particleA
    (CortexEngine.createCognitivePacket 0) [particleA] 0 0 0 0 h0 h1
  exact ⟨h0, h1, hc, hp, hs⟩

-- ════════════════════════════════════════════════════════════════════════════
-- C1: scrub direction
-- ════════════════════════════════════════════════════════════════════════════

/-- On a nonempty history, `scrub` sends percentage 0 to the oldest offset
(recordedFrames - 1) and percentage 1 to the newest offset 0. -/
lemma scrub_zero_one (b : ChronosBuffer) (h : 0 < b.recordedFrames) :
    b.scrub 0 = (b.recordedFrames : ℤ) - 1 ∧ b.scrub 1 = 0 := by
  constructor
  · simp only [ChronosBuffer.scrub]
    rw [show max (0:ℝ) (min 1 0) = 0 by norm_num]
    rw [show ((b.recordedFrames : ℝ) * (1 - 0)) = (b.recordedFrames : ℝ) by ring]
    rw [Int.floor_natCast]
    omega
  · simp only [ChronosBuffer.scrub]
    rw [show max (0:ℝ) (min 1 1) = 1 by norm_num]
    rw [show ((b.recordedFrames : ℝ) * (1 - 1)) = 0 by ring]
    rw [Int.floor_zero]
    omega

/-- Iterating `recordFrame` on a recording buffer adds one recorded frame per
call, saturating at maxFrames, and preserves the recording flag and capacity. -/
lemma recordFrame_iterate_fields (es : List KineticState) (k : ℕ) :
    ∀ b : ChronosBuffer, b.isRecording = true → b.recordedFrames ≤ b.maxFrames →
      ((fun x => ChronosBuffer.recordFrame x es)^[k] b).recordedFrames
          = min (b.recordedFrames + k) b.maxFrames ∧
        ((fun x => ChronosBuffer.recordFrame x es)^[k] b).isRecording = true ∧
        ((fun x => ChronosBuffer.recordFrame x es)^[k] b).maxFrames = b.maxFrames := by
  induction k with
  | zero =>
      intro b hrec hle
      simp [Nat.min_def, hle, hrec]
  | succ n ih =>
      intro b hrec hle
      rw [Function.iterate_succ_apply]
      have hstep : (ChronosBuffer.recordFrame b es).recordedFrames
            = min (b.recordedFrames + 1) b.maxFrames ∧
          (ChronosBuffer.recordFrame b es).isRecording = true ∧
          (ChronosBuffer.recordFrame b es).maxFrames = b.maxFrames := by
        simp [ChronosBuffer.recordFrame, hrec]
      obtain ⟨h1, h2, h3⟩ := hstep
      obtain ⟨g1, g2, g3⟩ := ih (ChronosBuffer.recordFrame b es) h2
        (by rw [h1, h3]; omega)
      refine ⟨?_, g2, by rw [g3, h3]⟩
      rw [g1, h1, h3]
      omega

/-- C1 counterexample: after recording exactly 10 frames into the capacity-600
buffer for 3 entities, `scrub(1.0)` returns 0 (the newest frame) and
`scrub(0.0)` returns 9 (the oldest) — the opposite of the claim. -/
theorem c1_counterexample_scrub_reversed :
    chronosAfter10.recordedFrames = 10 ∧
    chronosAfter10.scrub 1 = 0 ∧
    chronosAfter10.scrub 0 = 9 ∧
    ¬ (chronosAfter10.scrub 1 = 9 ∧ chronosAfter10.scrub 0 = 0) := by
  have hrec : chronosAfter10.recordedFrames = 10 := by
    have := recordFrame_iterate_fields esThree 10 chronos600 rfl
      (by norm_num [chronos600, ChronosBuffer.create])
    unfold chronosAfter10
    rw [this.1]
    norm_num [chronos600, ChronosBuffer.create]
  have hpos : 0 < chronosAfter10.recordedFrames := by omega
  obtain ⟨h0, h1⟩ := scrub_zero_one chronosAfter10 hpos
  rw [hrec] at h0
  refine ⟨hrec, h1, by rw [h0]; norm_num, ?_⟩
  intro hcl
  rw [h1] at hcl
  exact absurd hcl.1 (by norm_num)

/-- C1 corrected: for a history buffer with recordedFrames > 0, `scrub` maps
percentage 1.0 to backward offset 0 (the most recent recorded frame) and
percentage 0.0 to offset recordedFrames - 1 (the oldest available); after
recording exactly 10 frames, `scrub(0.0)` returns 9 and `scrub(1.0)` returns 0. -/
theorem c1_scrub_direction (b : ChronosBuffer) (h : 0 < b.recordedFrames) :
    b.scrub 1 = 0 ∧ b.scrub 0 = (b.recordedFrames : ℤ) - 1 := by
  obtain ⟨h0, h1⟩ := scrub_zero_one b h
  exact ⟨h1, h0⟩

/-- C1 witness: the 10-frame scenario-D buffer has a positive recorded count,
scrub(1.0) = 0 and scrub(0.0) = recordedFrames - 1. -/
theorem c1_scrub_direction_witness :
    0 < chronosAfter10.recordedFrames ∧
    chronosAfter10.scrub 1 = 0 ∧
    chronosAfter10.scrub 0 = (chronosAfter10.recordedFrames : ℤ) - 1 := by
  have hrec : chronosAfter10.recordedFrames = 10 := by
    have := recordFrame_iterate_fields esThree 10 chronos600 rfl
      (by norm_num [chronos600, ChronosBuffer.create])
    unfold chronosAfter10
    rw [this.1]
    norm_num [chronos600, ChronosBuffer.create]
  have hpos : 0 < chronosAfter10.recordedFrames := by omega
  obtain ⟨ha, hb⟩ := c1_scrub_direction chronosAfter10 hpos
  exact ⟨hpos, ha, hb⟩

-- ════════════════════════════════════════════════════════════════════════════
-- C5: recordFrame / replayFrame(0) round trip
-- ════════════════════════════════════════════════════════════════════════════

/-- Reading back the six fields just written for one entity. -/
lemma storeEntity_read_field (buf : ℤ → ℝ) (off : ℤ) (e : KineticState)
    (k : ℕ) (hk : k < 6) :
    ChronosBuffer.storeEntity buf off e (off + (k : ℤ)) = entityField e k := by
  interval_cases k <;> norm_num [ChronosBuffer.storeEntity, entityField]

/-- A write for one entity does not touch addresses outside its six slots. -/
lemma storeEntity_read_other (buf : ℤ → ℝ) (off : ℤ) (e : KineticState)
    (a : ℤ) (ha : a < off ∨ off + 6 ≤ a) :
    ChronosBuffer.storeEntity buf off e a = buf a := by
  unfold ChronosBuffer.storeEntity
  rw [if_neg (by omega), if_neg (by omega), if_neg (by omega),
    if_neg (by omega), if_neg (by omega), if_neg (by omega)]

/-- The entity-write loop leaves every address below its first slot alone. -/
lemma storeEntities_unchanged_low (es : List KineticState) :
    ∀ (buf : ℤ → ℝ) (base : ℤ) (i0 limit : ℕ) (a : ℤ),
      a < base + (i0 : ℤ) * 6 →
      ChronosBuffer.storeEntities buf base i0 limit es a = buf a := by
  induction es with
  | nil => intro buf base i0 limit a h; rfl
  | cons e0 rest ih =>
      intro buf base i0 limit a h
      simp only [ChronosBuffer.storeEntities]
      split_ifs with hi
      · rw [ih (ChronosBuffer.storeEntity buf (base + (i0 : ℤ) * 6) e0) base
          (i0 + 1) limit a (by push_cast; push_cast at h; linarith)]
        exact storeEntity_read_other _ _ _ _ (Or.inl h)
      · rfl

/-- Reading entity `j`'s slot after the write loop returns the field stored
for the `j - i0`-th list element. -/
lemma storeEntities_read (es : List KineticState) :
    ∀ (buf : ℤ → ℝ) (base : ℤ) (i0 limit j : ℕ) (e : KineticState) (k : ℕ),
      i0 ≤ j → j < limit → es[j - i0]? = some e → k < 6 →
      ChronosBuffer.storeEntities buf base i0 limit es (base + (j : ℤ) * 6 + (k : ℤ))
        = entityField e k := by
  induction es with
  | nil =>
      intro buf base i0 limit j e k h1 h2 h3 h4
      simp at h3
  | cons e0 rest ih =>
      intro buf base i0 limit j e k h1 h2 h3 h4
      simp only [ChronosBuffer.storeEntities]
      rw [if_pos (lt_of_le_of_lt h1 h2)]
      by_cases hji : j = i0
      · subst hji
        have he : e = e0 := by
          simp [Nat.sub_self] at h3
          exact h3.symm
        subst he
        rw [storeEntities_unchanged_low rest _ base (j + 1) limit _
          (by push_cast; omega)]
        exact storeEntity_read_field buf _ e k h4
      · have hlt : i0 < j := lt_of_le_of_ne h1 (Ne.symm hji)
        have h3a : rest[j - (i0 + 1)]? = some e := by
          have hidx : j - i0 = (j - (i0 + 1)) + 1 := by omega
          rw [hidx] at h3
          simpa using h3
        exact ih _ base (i0 + 1) limit j e k hlt h2 h3a h4

/-- Reading entry `j` of the hydrate loop output: position and velocity come
from the frame slots, the rest of the entity is untouched. -/
lemma hydrateEntities_getElem (buf : ℤ → ℝ) (base : ℤ) (es : List KineticState) :
    ∀ (i0 limit j : ℕ) (e : KineticState),
      es[j]? = some e → i0 + j < limit →
      (ChronosBuffer.hydrateEntities buf base i0 limit es)[j]?
        = some { e with
            position := ⟨buf (base + ((i0 + j : ℕ) : ℤ) * 6 + 0),
                         buf (base + ((i0 + j : ℕ) : ℤ) * 6 + 1)⟩,
            velocity := ⟨buf (base + ((i0 + j : ℕ) : ℤ) * 6 + 2),
                         buf (base + ((i0 + j : ℕ) : ℤ) * 6 + 3)⟩ } := by
  induction es with
  | nil =>
      intro i0 limit j e h hlt
      simp at h
  | cons e0 rest ih =>
      intro i0 limit j e h hlt
      simp only [ChronosBuffer.hydrateEntities]
      rw [if_pos (by omega)]
      cases j with
      | zero =>
          have he : e0 = e := by simpa using h
          subst he
          simp
      | succ n =>
          have h2 : rest[n]? = some e := by simpa using h
          rw [List.getElem?_cons_succ]
          rw [show i0 + (n + 1) = (i0 + 1) + n by omega]
          exact ih (i0 + 1) limit n e h2 (by omega)

/-- Walking one frame back from the advanced head lands on the slot just
written. -/
lemma wrap_back_head (h M : ℕ) (hh : h < M) :
    ((((h + 1) % M : ℕ) : ℤ) - 1 - 0 + (M : ℤ)) % (M : ℤ) = (h : ℤ) := by
  rcases Nat.lt_or_ge (h + 1) M with hlt | hge
  · rw [Nat.mod_eq_of_lt hlt]
    push_cast
    rw [show ((h : ℤ) + 1 - 1 - 0 + M) = (h : ℤ) + (M : ℤ) * 1 by ring]
    rw [Int.add_mul_emod_self_left]
    exact Int.emod_eq_of_lt (by positivity) (by exact_mod_cast hh)
  · have heq : h + 1 = M := by omega
    rw [heq, Nat.mod_self]
    push_cast
    rw [show (-1 + (M : ℤ)) = (M : ℤ) - 1 by ring]
    rw [Int.emod_eq_of_lt (by omega) (by omega)]
    omega

/-- C5: for every entity slot covered by the buffer, `replayFrame(0)` run
immediately after a `recordFrame` call (with recording on and the head inside
the capacity) restores exactly the position and velocity that `recordFrame`
stored for that entity, and leaves the entity's acceleration unchanged. -/
theorem c5_record_replay_roundtrip (b : ChronosBuffer) (es : List KineticState)
    (i : ℕ) (e : KineticState) (hrec : b.isRecording = true)
    (hhead : b.headIndex < b.maxFrames)
    (hie : es[i]? = some e) (hic : i < b.entityCount) :
    ∃ e2, ((b.recordFrame es).replayFrame 0 es).1[i]? = some e2 ∧
      e2.position = e.position ∧ e2.velocity = e.velocity ∧
      e2.acceleration = e.acceleration := by
  have hlen : i < es.length := by
    by_contra hcon
    rw [List.getElem?_eq_none (by omega)] at hie
    exact Option.noConfusion hie
  have hlimit : i < min es.length b.entityCount := by omega
  have hb2 : b.recordFrame es
      = { b with
            buffer := ChronosBuffer.storeEntities b.buffer
              ((b.headIndex : ℤ) * ((b.entityCount : ℤ) * 6)) 0
              (min es.length b.entityCount) es,
            headIndex := (b.headIndex + 1) % b.maxFrames,
            recordedFrames := min (b.recordedFrames + 1) b.maxFrames,
            playbackIndex := (b.headIndex + 1) % b.maxFrames } := by
    simp [ChronosBuffer.recordFrame, hrec]
  have hM1 : 1 ≤ b.maxFrames := by omega
  have hrec2 : ¬ (min (b.recordedFrames + 1) b.maxFrames = 0) := by omega
  rw [hb2]
  simp only [ChronosBuffer.replayFrame]
  rw [if_neg hrec2]
  have hoff : ((min 0 (min (b.recordedFrames + 1) b.maxFrames - 1) : ℕ) : ℤ) = 0 := by
    simp
  rw [hoff]
  rw [wrap_back_head b.headIndex b.maxFrames hhead]
  set base : ℤ := (b.headIndex : ℤ) * ((b.entityCount : ℤ) * 6) with hbase
  set buf2 := ChronosBuffer.storeEntities b.buffer base 0
    (min es.length b.entityCount) es with hbuf2
  have hread : ∀ k : ℕ, k < 6 →
      buf2 (base + (i : ℤ) * 6 + (k : ℤ)) = entityField e k := by
    intro k hk
    exact storeEntities_read es b.buffer base 0 (min es.length b.entityCount) i e k
      (Nat.zero_le i) hlimit (by simpa using hie) hk
  have hget := hydrateEntities_getElem buf2 base es 0 (min es.length b.entityCount)
    i e hie (by omega)
  rw [Nat.zero_add] at hget
  refine ⟨_, hget, ?_, ?_, rfl⟩
  · show (⟨buf2 (base + (i : ℤ) * 6 + 0), buf2 (base + (i : ℤ) * 6 + 1)⟩ : Vector2D)
        = e.position
    have h0 := hread 0 (by norm_num)
    have h1 := hread 1 (by norm_num)
    rw [show ((0:ℕ):ℤ) = 0 from rfl] at h0
    rw [show ((1:ℕ):ℤ) = 1 from rfl] at h1
    rw [h0, h1]
    rfl
  · show (⟨buf2 (base + (i : ℤ) * 6 + 2), buf2 (base + (i : ℤ) * 6 + 3)⟩ : Vector2D)
        = e.velocity
    have h2 := hread 2 (by norm_num)
    have h3 := hread 3 (by norm_num)
    rw [show ((2:ℕ):ℤ) = 2 from rfl] at h2
    rw [show ((3:ℕ):ℤ) = 3 from rfl] at h3
    rw [h2, h3]
    rfl

/-- C5 witness: recording the three concrete states into a fresh 600-frame
3-entity buffer and replaying offset 0 restores entity 1's position and
velocity exactly, with its acceleration untouched. -/
theorem c5_record_replay_roundtrip_witness :
    chronos600.isRecording = true ∧
    chronos600.headIndex < chronos600.maxFrames ∧
    esThree[1]? = some stateB ∧
    (1 < chronos600.entityCount) ∧
    (∃ e2, ((chronos600.recordFrame esThree).replayFrame 0 esThree).1[1]? = some e2 ∧
      e2.position = stateB.position ∧ e2.velocity = stateB.velocity ∧
      e2.acceleration = stateB.acceleration) := by
  have h1 : chronos600.isRecording = true := rfl
  have h2 : chronos600.headIndex < chronos600.maxFrames := by
    norm_num [chronos600, ChronosBuffer.create]
  have h3 : esThree[1]? = some stateB := by simp [esThree]
  have h4 : 1 < chronos600.entityCount := by
    norm_num [chronos600, ChronosBuffer.create]
  exact ⟨h1, h2, h3, h4, c5_record_replay_roundtrip chronos600 esThree 1 stateB h1 h2 h3 h4⟩

-- ════════════════════════════════════════════════════════════════════════════
-- C3: one tick for two repelling unit-mass entities
-- ════════════════════════════════════════════════════════════════════════════

lemma Vector2D.zero_add_vec (v : Vector2D) : Vector2D.zero.add v = v := by
  unfold Vector2D.add Vector2D.zero
  simp

lemma Vector2D.magnitude_mk_x_abs (a : ℝ) : (⟨a, 0⟩ : Vector2D).magnitude = |a| := by
  unfold Vector2D.magnitude
  rw [show a * a + 0 * 0 = a ^ 2 by ring, Real.sqrt_sq_eq_abs]

/-- The drift steering has both components bounded by 0.05 in absolute value. -/
lemma behaviorDrift_bounds (e : Particle) (t : ℕ) :
    |(CortexEngine.behaviorDrift e t).x| ≤ 0.05 ∧
    |(CortexEngine.behaviorDrift e t).y| ≤ 0.05 := by
  unfold CortexEngine.behaviorDrift Vector2D.multiply
  constructor
  · show |Real.cos _ * 0.05| ≤ 0.05
    rw [abs_mul, show |(0.05:ℝ)| = 0.05 by norm_num]
    nlinarith [Real.abs_cos_le_one (Real.sin ((t : ℝ) / 60 + e.mass * 10) * Real.pi)]
  · show |Real.sin _ * 0.05| ≤ 0.05
    rw [abs_mul, show |(0.05:ℝ)| = 0.05 by norm_num]
    nlinarith [Real.abs_sin_le_one (Real.sin ((t : ℝ) / 60 + e.mass * 10) * Real.pi)]

/-- The drift steering is never the zero vector: its squared length is
0.05² = 0.0025. -/
lemma behaviorDrift_sq (e : Particle) (t : ℕ) :
    (CortexEngine.behaviorDrift e t).x ^ 2 + (CortexEngine.behaviorDrift e t).y ^ 2
      = 0.0025 := by
  unfold CortexEngine.behaviorDrift Vector2D.multiply
  show (Real.cos _ * 0.05) ^ 2 + (Real.sin _ * 0.05) ^ 2 = 0.0025
  have h := Real.sin_sq_add_cos_sq
    (Real.sin ((t : ℝ) / 60 + e.mass * 10) * Real.pi)
  nlinarith [h]

/-- The process step of a fresh IDLE_DRIFT packet at tick 0 steers by the
drift behavior. -/
lemma process_fresh_drift (e : Particle) (ns : List Particle) :
    (CortexEngine.process e ⟨CortexState.IDLE_DRIFT, none, 0, 0, 0, []⟩ ns 0 0 0 0).1
      = CortexEngine.behaviorDrift e 0 := by
  simp only [CortexEngine.process, CortexEngine.updateAnxiety, CortexEngine.updateMemory]
  rw [if_neg (by norm_num)]
  simp [CortexEngine.executeBehavior]

/-- PHASE 0 on the two-particle scenario adds the common drift steering to
both accelerations. -/
lemma c3_phase0_eval :
    (phase0 [particleA, particleB] 0 randZero 0 [particleA, particleB] packetsAB).1
      = [{ particleA with acceleration := CortexEngine.behaviorDrift particleA 0 },
         { particleB with acceleration := CortexEngine.behaviorDrift particleA 0 }] := by
  have hdB : CortexEngine.behaviorDrift particleB 0 = CortexEngine.behaviorDrift particleA 0 := rfl
  have hne : ¬ (particleB.id = particleA.id) := by decide
  simp only [phase0, packetsAB, randZero, hne, if_false, ite_false,
    process_fresh_drift, hdB,
    show particleA.acceleration = Vector2D.zero from rfl,
    show particleB.acceleration = Vector2D.zero from rfl,
    Vector2D.zero_add_vec]

/-- Shorthand facts about the two concrete particles. -/
lemma particleA_fields :
    particleA.position = ⟨300, 300⟩ ∧ particleA.velocity = Vector2D.zero ∧
    particleA.mass = 1 ∧ particleA.radius = 22 := ⟨rfl, rfl, rfl, rfl⟩

/-- The repulsion force between the two scenario particles (drift-updated
accelerations do not matter): magnitude 5000/100 = 50 toward negative x. -/
lemma c3_force_eval (v w : Vector2D) :
    calculateRepulsion configD1 { particleA with acceleration := v }
      { particleB with acceleration := w } = ⟨-50, 0⟩ := by
  have hdelta : particleA.position.subtract particleB.position = ⟨-10, 0⟩ := by
    show (⟨(300:ℝ), 300⟩ : Vector2D).subtract ⟨310, 300⟩ = ⟨-10, 0⟩
    unfold Vector2D.subtract
    norm_num
  have hmagd : ((⟨(-10:ℝ), 0⟩ : Vector2D)).magnitude = 10 := by
    rw [Vector2D.magnitude_mk_x_abs]
    norm_num
  have hnorm : ((⟨(-10:ℝ), 0⟩ : Vector2D)).normalize = ⟨-1, 0⟩ := by
    rw [Vector2D.normalize_eq_smul _ (by rw [hmagd]; norm_num), hmagd]
    rw [Vector2D.mk.injEq]
    norm_num
  simp only [calculateRepulsion, hdelta, hmagd, hnorm]
  rw [show max (10:ℝ) 1 = 10 by norm_num]
  show (⟨(-1:ℝ), 0⟩ : Vector2D).multiply ((5000:ℝ) * 1 * 1 / (10 * 10)) = ⟨-50, 0⟩
  unfold Vector2D.multiply
  norm_num

/-- PHASE A on the two-particle scenario applies the forces (-50, 0) and
(+50, 0) through Newton's third law. -/
lemma c3_phaseA_eval (d : Vector2D) :
    phaseA configD1 [{ particleA with acceleration := d },
      { particleB with acceleration := d }]
      = [{ particleA with acceleration := d.add ⟨-50, 0⟩ },
         { particleB with acceleration := d.subtract ⟨-50, 0⟩ }] := by
  have hdiv : ((⟨(-50:ℝ), 0⟩ : Vector2D)).divide 1 = ⟨-50, 0⟩ := by
    unfold Vector2D.divide
    norm_num
  show applyRepulsionPair configD1 [{ particleA with acceleration := d },
    { particleB with acceleration := d }] (0, 1) = _
  simp only [applyRepulsionPair, List.getElem?_cons_zero, List.getElem?_cons_succ]
  rw [c3_force_eval d d]
  rw [show ({ particleA with acceleration := d } : Particle).mass = 1 from rfl]
  rw [show ({ particleB with acceleration := d } : Particle).mass = 1 from rfl]
  rw [hdiv]
  simp only [List.set]

lemma Vector2D.add_zero_vec (v : Vector2D) : v.add ⟨0, 0⟩ = v := by
  unfold Vector2D.add
  simp

/-- Center gravity vanishes for the gravity-0 configuration. -/
lemma c3_gravity_zero (p : Particle) :
    calculateCenterGravity configD1 800 600 p = ⟨0, 0⟩ := by
  simp only [calculateCenterGravity]
  show ((⟨(800:ℝ)/2, 600/2⟩ : Vector2D).subtract p.position).multiply
    (configD1.centerGravity * p.mass) = ⟨0, 0⟩
  rw [show configD1.centerGravity = 0 from rfl]
  unfold Vector2D.subtract Vector2D.multiply
  rw [Vector2D.mk.injEq]
  norm_num

/-- PHASE C for scenario particle A: damping 1, no gravity, clamp inactive. -/
lemma c3_phaseC_eval_A (d : Vector2D) (hdx : |d.x| ≤ 0.05) (hdy : |d.y| ≤ 0.05) :
    (phaseCStep configD1 800 600
      { particleA with acceleration := d.add ⟨-50, 0⟩ }).position
      = ⟨250 + d.x, 300 + d.y⟩ := by
  obtain ⟨hdx1, hdx2⟩ := abs_le.mp hdx
  obtain ⟨hdy1, hdy2⟩ := abs_le.mp hdy
  have hdiv0 : ((⟨(0:ℝ), 0⟩ : Vector2D)).divide 1 = ⟨0, 0⟩ := by
    unfold Vector2D.divide
    norm_num
  simp only [phaseCStep, c3_gravity_zero]
  rw [show ({ particleA with acceleration := d.add ⟨-50, 0⟩ } : Particle).mass = 1 from rfl]
  rw [hdiv0]
  rw [Vector2D.add_zero_vec]
  rw [show particleA.velocity = Vector2D.zero from rfl]
  rw [Vector2D.zero_add_vec]
  rw [show configD1.damping = 1 from rfl, Vector2D.multiply_one]
  rw [show particleA.position = (⟨(300:ℝ), 300⟩ : Vector2D) from rfl]
  rw [show particleA.radius = (22:ℝ) from rfl]
  simp only [Vector2D.add]
  rw [Vector2D.mk.injEq]
  constructor
  · show max 22 (min (800 - 22) (300 + (d.x + (⟨(-50:ℝ), 0⟩ : Vector2D).x))) = 250 + d.x
    rw [show ((⟨(-50:ℝ), 0⟩ : Vector2D)).x = -50 from rfl]
    rw [show (300:ℝ) + (d.x + -50) = 250 + d.x by ring]
    rw [min_eq_right (by linarith), max_eq_right (by linarith)]
  · show max 22 (min (600 - 22) (300 + (d.y + (⟨(-50:ℝ), 0⟩ : Vector2D).y))) = 300 + d.y
    rw [show ((⟨(-50:ℝ), 0⟩ : Vector2D)).y = 0 from rfl]
    rw [show (300:ℝ) + (d.y + 0) = 300 + d.y by ring]
    rw [min_eq_right (by linarith), max_eq_right (by linarith)]

/-- PHASE C for scenario particle B. -/
lemma c3_phaseC_eval_B (d : Vector2D) (hdx : |d.x| ≤ 0.05) (hdy : |d.y| ≤ 0.05) :
    (phaseCStep configD1 800 600
      { particleB with acceleration := d.subtract ⟨-50, 0⟩ }).position
      = ⟨360 + d.x, 300 + d.y⟩ := by
  obtain ⟨hdx1, hdx2⟩ := abs_le.mp hdx
  obtain ⟨hdy1, hdy2⟩ := abs_le.mp hdy
  have hdiv0 : ((⟨(0:ℝ), 0⟩ : Vector2D)).divide 1 = ⟨0, 0⟩ := by
    unfold Vector2D.divide
    norm_num
  simp only [phaseCStep, c3_gravity_zero]
  rw [show ({ particleB with acceleration := d.subtract ⟨-50, 0⟩ } : Particle).mass = 1 from rfl]
  rw [hdiv0]
  rw [Vector2D.add_zero_vec]
  rw [show particleB.velocity = Vector2D.zero from rfl]
  rw [Vector2D.zero_add_vec]
  rw [show configD1.damping = 1 from rfl, Vector2D.multiply_one]
  rw [show particleB.position = (⟨(310:ℝ), 300⟩ : Vector2D) from rfl]
  rw [show particleB.radius = (22:ℝ) from rfl]
  simp only [Vector2D.add, Vector2D.subtract]
  rw [Vector2D.mk.injEq]
  constructor
  · show max 22 (min (800 - 22) (310 + (d.x - (⟨(-50:ℝ), 0⟩ : Vector2D).x))) = 360 + d.x
    rw [show ((⟨(-50:ℝ), 0⟩ : Vector2D)).x = -50 from rfl]
    rw [show (310:ℝ) + (d.x - -50) = 360 + d.x by ring]
    rw [min_eq_right (by linarith), max_eq_right (by linarith)]
  · show max 22 (min (600 - 22) (300 + (d.y - (⟨(-50:ℝ), 0⟩ : Vector2D).y))) = 300 + d.y
    rw [show ((⟨(-50:ℝ), 0⟩ : Vector2D)).y = 0 from rfl]
    rw [show (300:ℝ) + (d.y - 0) = 300 + d.y by ring]
    rw [min_eq_right (by linarith), max_eq_right (by linarith)]

/-- One tick of the two-particle scenario: final positions are the initial
ones moved by the drift steering plus/minus the 50-unit repulsion kick. -/
lemma c3_sim_positions :
    (simulate configD1 800 600 [particleA, particleB] packetsAB [] 0 randZero).1.map
        (fun q => q.position)
      = [⟨250 + (CortexEngine.behaviorDrift particleA 0).x,
          300 + (CortexEngine.behaviorDrift particleA 0).y⟩,
         ⟨360 + (CortexEngine.behaviorDrift particleA 0).x,
          300 + (CortexEngine.behaviorDrift particleA 0).y⟩] := by
  obtain ⟨hbx, hby⟩ := behaviorDrift_bounds particleA 0
  have hps0 : ([particleA, particleB].map (fun p => { p with acceleration := Vector2D.zero }))
      = [particleA, particleB] := by
    simp [particleA, particleB]
  simp only [simulate]
  rw [hps0]
  rw [c3_phase0_eval]
  rw [c3_phaseA_eval]
  rw [show ∀ ps : List Particle, phaseB configD1 [] ps = ps from fun ps => rfl]
  simp only [List.map_cons, List.map_nil]
  rw [c3_phaseC_eval_A _ hbx hby, c3_phaseC_eval_B _ hbx hby]

/-- C3 counterexample: after one orchestrator tick of the scenario (two
unit-mass entities 10 apart, repulsion 5000, no connections, zero gravity,
damping 1), the two displacements are NOT exactly equal and opposite: both
entities also receive the same nonzero drift steering from the Cortex phase. -/
theorem c3_counterexample_drift_breaks_symmetry :
    ¬ ((((simulate configD1 800 600 [particleA, particleB] packetsAB [] 0 randZero).1.map
          (fun q => q.position)).getD 0 Vector2D.zero).subtract particleA.position
        = ((((simulate configD1 800 600 [particleA, particleB] packetsAB [] 0 randZero).1.map
          (fun q => q.position)).getD 1 Vector2D.zero).subtract particleB.position).negate) := by
  rw [c3_sim_positions]
  intro h
  simp only [List.getD_cons_zero, List.getD_cons_succ,
    show particleA.position = (⟨(300:ℝ), 300⟩ : Vector2D) from rfl,
    show particleB.position = (⟨(310:ℝ), 300⟩ : Vector2D) from rfl,
    Vector2D.subtract, Vector2D.negate, Vector2D.mk.injEq] at h
  obtain ⟨hx, hy⟩ := h
  have hdx : (CortexEngine.behaviorDrift particleA 0).x = 0 := by linarith
  have hdy : (CortexEngine.behaviorDrift particleA 0).y = 0 := by linarith
  have hsq := behaviorDrift_sq particleA 0
  rw [hdx, hdy] at hsq
  norm_num at hsq

/-- C3 corrected: after one orchestrator tick of the scenario, the two
displacements share the entities' common drift steering (equal masses give
identical drift); subtracting that drift leaves exactly equal and opposite
displacements, and the remaining displacement of entity A lies along the line
connecting the initial positions (it is the connecting vector scaled by 5). -/
theorem c3_repulsion_equal_opposite_modulo_drift :
    (((((simulate configD1 800 600 [particleA, particleB] packetsAB [] 0 randZero).1.map
          (fun q => q.position)).getD 0 Vector2D.zero).subtract particleA.position).subtract
        (CortexEngine.behaviorDrift particleA 0)
      = ((((((simulate configD1 800 600 [particleA, particleB] packetsAB [] 0 randZero).1.map
          (fun q => q.position)).getD 1 Vector2D.zero).subtract particleB.position).subtract
        (CortexEngine.behaviorDrift particleA 0)).negate)) ∧
    (((((simulate configD1 800 600 [particleA, particleB] packetsAB [] 0 randZero).1.map
          (fun q => q.position)).getD 0 Vector2D.zero).subtract particleA.position).subtract
        (CortexEngine.behaviorDrift particleA 0)
      = (particleA.position.subtract particleB.position).multiply 5) := by
  rw [c3_sim_positions]
  simp only [List.getD_cons_zero, List.getD_cons_succ,
    show particleA.position = (⟨(300:ℝ), 300⟩ : Vector2D) from rfl,
    show particleB.position = (⟨(310:ℝ), 300⟩ : Vector2D) from rfl,
    Vector2D.subtract, Vector2D.negate, Vector2D.multiply, Vector2D.mk.injEq]
  refine ⟨⟨by ring, by ring⟩, by ring, by ring⟩
